import Mathlib

/-!
Shallow embedding of the core ADS-B decoding / state-tracking logic of this
repository (`src/adsb/adsb.py`, and the legacy decoder in
`src/adsb_to_csv.py`), together with theorems settling the frozen claims.

Modelling conventions:
* Python `float` values are modelled by `PyFloatVal`: finite values as exact
  rationals (`ℚ`; rounding to the nearest double is not modelled), plus the
  two infinities and nan.  String conversion `pyFloat` covers the
  sign / decimal / exponent grammar and the `inf` / `infinity` / `nan`
  spellings, and overflows to the infinities at the IEEE-754 double bound,
  as CPython's `float(s)` does.
* Python `int` is `ℤ`; `int(float_value)` truncates towards zero on finite
  values (`ratTrunc`), raises a caught `ValueError` on nan, and raises an
  uncaught `OverflowError` on the infinities — fallible code therefore
  returns `Except`, and `parse_sbs_line` can raise.
* `None`-able fields are `Option`; Python string truthiness (`if s:`) is
  `s ≠ ""` on plain strings and `∃ v, s = some v ∧ v ≠ ""` on optional ones.
* Dictionaries keyed by strings are association lists threaded functionally;
  `datetime.now(...)` / `time.time()` are passed in as explicit parameters.
-/

set_option maxRecDepth 100000

/-- The characters stripped by Python's `str.strip()` (ASCII whitespace). -/
def pyWhitespace : List Char := [' ', '\t', '\n', '\r', Char.ofNat 11, Char.ofNat 12]

/-- Python `str.strip()` on a character list. -/
def pyStripL (l : List Char) : List Char :=
  ((l.dropWhile (· ∈ pyWhitespace)).reverse.dropWhile (· ∈ pyWhitespace)).reverse

/-- Python `str.strip()`. -/
def pyStrip (s : String) : String := ⟨pyStripL s.data⟩

/-- Python `str.upper()` (ASCII model). -/
def pyUpper (s : String) : String := ⟨s.data.map Char.toUpper⟩

/-- Split a character list on a separator, keeping empty segments
(the behaviour of Python `str.split(",")` for a one-character separator). -/
def splitOnCharL (sep : Char) (l : List Char) : List (List Char) :=
  l.foldr
    (fun c acc =>
      match acc with
      | cur :: rest => if c = sep then [] :: cur :: rest else (c :: cur) :: rest
      | [] => [[c]])
    [[]]

/-- Python `str.split(",")`. -/
def pySplit (s : String) : List String := (splitOnCharL ',' s.data).map (⟨·⟩)

/-- Field access `fields[i]` (used only under the source's length guards). -/
def fieldAt (fields : List String) (i : ℕ) : String := (fields.get? i).getD ""

/-- Numeric value of a digit run. -/
def digitsVal (l : List Char) : ℕ := l.foldl (fun a c => 10 * a + (c.toNat - '0'.toNat)) 0

/-- Leading sign of a Python numeric literal: returns (isNegative, rest). -/
def pySign : List Char → Bool × List Char
  | '+' :: r => (false, r)
  | '-' :: r => (true, r)
  | l => (false, l)

/-- Values of CPython `float(s)`: a finite value (kept as an exact
rational), one of the two infinities, or nan. -/
inductive PyFloatVal where
  | finite (q : ℚ)
  | posInf
  | negInf
  | nan
deriving DecidableEq, Repr

/-- The finite payload of a `PyFloatVal`, if any. -/
def PyFloatVal.finite? : PyFloatVal → Option ℚ
  | .finite q => some q
  | _ => none

/-- The smallest magnitude at which conversion to an IEEE-754 double
overflows to infinity under round-to-nearest-even: half an ulp above the
largest finite double, `(2^54 - 1) * 2^970`, written out as a numeral so
that it evaluates by `decide`; `doubleOverflowBound_eq` below certifies the
closed form. -/
def doubleOverflowBound : ℚ :=
  mkRat 179769313486231580793728971405303415079934132710037826936173778980444968292764750946649017977587207096330286416692887910946555547851940402630657488671505820681908902000708383676273854845817711531764475730270069855571366959622842914819860834936475292719074168444365510704342711559699508093042880177904174497792 1

lemma doubleOverflowBound_eq :
    doubleOverflowBound = mkRat ((2 ^ 54 - 1) * 2 ^ 970) 1 := by
  rw [doubleOverflowBound,
    show ((2 ^ 54 - 1) * 2 ^ 970 : ℤ)
      = 179769313486231580793728971405303415079934132710037826936173778980444968292764750946649017977587207096330286416692887910946555547851940402630657488671505820681908902000708383676273854845817711531764475730270069855571366959622842914819860834936475292719074168444365510704342711559699508093042880177904174497792 from by norm_num]

/-- Attach the sign to a parsed magnitude, overflowing to the infinities
exactly where CPython's `float(s)` does (e.g. `float("1e400")` is `inf`). -/
def pySignedVal (neg : Bool) (q : ℚ) : PyFloatVal :=
  if doubleOverflowBound ≤ q then (if neg then .negInf else .posInf)
  else .finite (if neg then -q else q)

/-- Model of Python `float(s)`: optional surrounding whitespace, optional
sign, then either an `inf`/`infinity`/`nan` spelling (case-insensitive) or
digits with an optional decimal point (at least one digit overall) and an
optional `e`/`E` exponent.  Finite in-range values are kept as exact
rationals; magnitudes at or beyond `doubleOverflowBound` become the
infinities, as in CPython. -/
def pyFloat (s : String) : Option PyFloatVal :=
  let l := pyStripL s.data
  let (neg, l1) := pySign l
  let lw := l1.map Char.toLower
  if lw = "inf".data ∨ lw = "infinity".data then
    some (if neg then .negInf else .posInf)
  else if lw = "nan".data then some .nan
  else
    let d1 := l1.takeWhile Char.isDigit
    let r1 := l1.dropWhile Char.isDigit
    let (d2, r2) :=
      match r1 with
      | '.' :: r => (r.takeWhile Char.isDigit, r.dropWhile Char.isDigit)
      | _ => (([] : List Char), r1)
    if d1.isEmpty && d2.isEmpty then none
    else
      let m : ℤ := digitsVal (d1 ++ d2)
      match r2 with
      | [] => some (pySignedVal neg (mkRat m (10 ^ d2.length)))
      | c :: r =>
        if c = 'e' ∨ c = 'E' then
          let (eneg, r3) := pySign r
          let d3 := r3.takeWhile Char.isDigit
          let r4 := r3.dropWhile Char.isDigit
          if d3.isEmpty || !r4.isEmpty then none
          else if eneg then some (pySignedVal neg (mkRat m (10 ^ (d2.length + digitsVal d3))))
          else some (pySignedVal neg (mkRat (m * (10:ℤ) ^ digitsVal d3) (10 ^ d2.length)))
        else none

instance {ε α : Type} [DecidableEq ε] [DecidableEq α] : DecidableEq (Except ε α) :=
  fun a b =>
    match a, b with
    | .error e1, .error e2 =>
      if h : e1 = e2 then .isTrue (by rw [h]) else .isFalse (fun hc => h (Except.error.inj hc))
    | .ok v1, .ok v2 =>
      if h : v1 = v2 then .isTrue (by rw [h]) else .isFalse (fun hc => h (Except.ok.inj hc))
    | .error _, .ok _ => .isFalse (fun hc => Except.noConfusion hc)
    | .ok _, .error _ => .isFalse (fun hc => Except.noConfusion hc)

/-- Model of Python `int(s)` on strings: optional whitespace, sign, digits. -/
def pyInt (s : String) : Option ℤ :=
  let l := pyStripL s.data
  let (neg, l1) := pySign l
  let d := l1.takeWhile Char.isDigit
  let r := l1.dropWhile Char.isDigit
  if d.isEmpty || !r.isEmpty then none
  else some (if neg then -(digitsVal d : ℤ) else (digitsVal d : ℤ))

/-- Truncation towards zero, the behaviour of Python `int(float_value)`:
`Int.tdiv` rounds towards zero and `q.den` is positive. -/
def ratTrunc (q : ℚ) : ℤ := q.num.tdiv (q.den : ℤ)

/-- Model of `ParsedMessage` (src/adsb/adsb.py lines 23-47): structured representation
of a single SBS-1 line. -/
structure ParsedMessage where
  raw : String
  message_type : String
  transmission_type : Option ℤ := none
  icao : String
  callsign : Option String := none
  lat : Option ℚ := none
  lon : Option ℚ := none
  altitude_ft : Option ℤ := none
  ground_speed_kts : Option ℚ := none
  track_deg : Option ℚ := none
  vertical_rate_fpm : Option ℤ := none
  squawk : Option String := none
  alert : Option Bool := none
  emergency : Option Bool := none
  spi : Option Bool := none
  on_ground : Option Bool := none
  has_position : Bool := false
deriving DecidableEq, Repr

/-- The `flight` property alias of `ParsedMessage` (adsb.py lines 43-46). -/
def ParsedMessage.flight (m : ParsedMessage) : Option String := m.callsign

/-- Model of `_parse_flag` (adsb.py lines 50-57): convert SBS flag fields to booleans. -/
def parse_flag (value : String) : Option Bool :=
  let v := pyStrip value
  if v = "1" then some true
  else if v = "0" then some false
  else none

/-- Callsign extraction of `parse_sbs_line` (adsb.py lines 92-94). -/
def extractCallsign (fields : List String) : Option String :=
  if fields.length > 10 ∧ pyStrip (fieldAt fields 10) ≠ "" then some (pyStrip (fieldAt fields 10))
  else none

/-- Altitude extraction of `parse_sbs_line` (adsb.py lines 96-101):
`int(float(fields[11]))` under `except ValueError`.  A `float` failure and
`int(nan)` raise `ValueError`, which is caught, leaving the field absent;
`int(±inf)` raises `OverflowError`, which the guard does not catch, so the
exception escapes `parse_sbs_line` (`Except.error`). -/
def extractAltitude (fields : List String) : Except Unit (Option ℤ) :=
  if fields.length > 11 ∧ pyStrip (fieldAt fields 11) ≠ "" then
    match pyFloat (fieldAt fields 11) with
    | none => .ok none
    | some (.finite q) => .ok (some (ratTrunc q))
    | some .nan => .ok none
    | some .posInf => .error ()
    | some .negInf => .error ()
  else .ok none

/-- Ground-speed extraction of `parse_sbs_line` (adsb.py lines 103-108):
the assignment `parsed.ground_speed_kts = float(fields[12])` stores whatever
`float` yields; nothing escapes the `except ValueError` here.  A non-finite
value (an `inf`/`nan` spelling or an overflowing decimal) is a genuine float
in CPython; it lies outside the rational model and is modelled as absent —
it feeds no error path and no claim reasons about a stored non-finite
speed. -/
def extractGroundSpeed (fields : List String) : Option ℚ :=
  if fields.length > 12 ∧ pyStrip (fieldAt fields 12) ≠ "" then
    (pyFloat (fieldAt fields 12)).bind PyFloatVal.finite?
  else none

/-- Track extraction of `parse_sbs_line` (adsb.py lines 110-115): same
shape and same non-finite convention as `extractGroundSpeed`. -/
def extractTrack (fields : List String) : Option ℚ :=
  if fields.length > 13 ∧ pyStrip (fieldAt fields 13) ≠ "" then
    (pyFloat (fieldAt fields 13)).bind PyFloatVal.finite?
  else none

/-- Position extraction of `parse_sbs_line` (adsb.py lines 117-132): the
lat/lon pair is accepted only together, both parseable and in range; any
failure (`ValueError` included) leaves both absent.  Only `float` is
applied here, so nothing can escape: a non-finite value fails the chained
range comparison in Python (an infinity exceeds a bound; every comparison
with nan is false), exactly as the non-finite match arm rejects it. -/
def extractPosition (fields : List String) : Option (ℚ × ℚ) :=
  if fields.length > 15 then
    let lat_str := pyStrip (fieldAt fields 14)
    let lon_str := pyStrip (fieldAt fields 15)
    if lat_str ≠ "" ∧ lon_str ≠ "" then
      match pyFloat lat_str, pyFloat lon_str with
      | some (.finite lat), some (.finite lon) =>
        if -90 ≤ lat ∧ lat ≤ 90 ∧ -180 ≤ lon ∧ lon ≤ 180 then some (lat, lon) else none
      | some _, some _ => none
      | _, _ => none
    else none
  else none

/-- Vertical-rate extraction of `parse_sbs_line` (adsb.py lines 134-139):
`int(float(fields[16]))` under `except ValueError`, with the same caught
`ValueError` / uncaught `OverflowError` split as `extractAltitude`. -/
def extractVerticalRate (fields : List String) : Except Unit (Option ℤ) :=
  if fields.length > 16 ∧ pyStrip (fieldAt fields 16) ≠ "" then
    match pyFloat (fieldAt fields 16) with
    | none => .ok none
    | some (.finite q) => .ok (some (ratTrunc q))
    | some .nan => .ok none
    | some .posInf => .error ()
    | some .negInf => .error ()
  else .ok none

/-- Squawk extraction of `parse_sbs_line` (adsb.py lines 141-143). -/
def extractSquawk (fields : List String) : Option String :=
  if fields.length > 17 ∧ pyStrip (fieldAt fields 17) ≠ "" then some (pyStrip (fieldAt fields 17))
  else none

/-- Flag extraction of `parse_sbs_line` (adsb.py lines 145-153): index `i` is
18..21; `_parse_flag` may itself yield `None` for a non-`0`/`1` value. -/
def extractFlag (fields : List String) (i : ℕ) : Option Bool :=
  if fields.length > i ∧ pyStrip (fieldAt fields i) ≠ "" then parse_flag (fieldAt fields i)
  else none

/-- Transmission-type extraction of `parse_sbs_line` (adsb.py lines 78-84). -/
def extractTransmissionType (fields : List String) : Option ℤ :=
  if fields.length > 1 ∧ pyStrip (fieldAt fields 1) ≠ "" then pyInt (fieldAt fields 1)
  else none

/-- The `ParsedMessage` assembled by a successful `parse_sbs_line` run on the
stripped line and its comma-separated fields (adsb.py lines 86-155): the
source's sequence of guarded assignments to distinct fields of `parsed` is
embedded as one record whose fields carry the corresponding guarded
expressions (the `extract*` functions above).  The altitude and vertical
rate are passed in by `parse_sbs_line`, which has already propagated any
uncaught `OverflowError` from their extraction. -/
def buildParsedMessage (raw_line : String) (fields : List String)
    (altitude_ft vertical_rate_fpm : Option ℤ) : ParsedMessage :=
  { raw := raw_line
    message_type := pyStrip (fieldAt fields 0)
    transmission_type := extractTransmissionType fields
    icao := pyUpper (pyStrip (fieldAt fields 4))
    callsign := extractCallsign fields
    altitude_ft := altitude_ft
    ground_speed_kts := extractGroundSpeed fields
    track_deg := extractTrack fields
    lat := (extractPosition fields).map Prod.fst
    lon := (extractPosition fields).map Prod.snd
    has_position := (extractPosition fields).isSome
    vertical_rate_fpm := vertical_rate_fpm
    squawk := extractSquawk fields
    alert := extractFlag fields 18
    emergency := extractFlag fields 19
    spi := extractFlag fields 20
    on_ground := extractFlag fields 21 }

/-- Model of `parse_sbs_line` (adsb.py lines 61-155): parse one
SBS-1/BaseStation CSV line into `.ok (some msg)`, or `.ok none` if the line
is not usable, or `.error ()` when the altitude or vertical-rate conversion
raises an uncaught `OverflowError` (the source catches only `ValueError`).
The altitude assignment precedes the vertical-rate assignment, as in the
source. -/
def parse_sbs_line (line : String) : Except Unit (Option ParsedMessage) :=
  let raw_line := pyStrip line
  if raw_line = "" then .ok none
  else
    let fields := pySplit raw_line
    if fields.length < 5 then .ok none
    else if pyStrip (fieldAt fields 0) ≠ "MSG" then .ok none
    else if pyUpper (pyStrip (fieldAt fields 4)) = "" then .ok none
    else
      match extractAltitude fields with
      | .error e => .error e
      | .ok alt =>
        match extractVerticalRate fields with
        | .error e => .error e
        | .ok vr => .ok (some (buildParsedMessage raw_line fields alt vr))


/-- Model of `AircraftState` (adsb.py lines 158-181): latest known data for a single
aircraft. -/
structure AircraftState where
  icao : String
  flight : String := ""
  registration : Option String := none
  icao_type : Option String := none
  model : Option String := none
  is_military : Option Bool := none
  is_interesting : Option Bool := none
  is_pia : Option Bool := none
  is_ladd : Option Bool := none
  lat : Option ℚ := none
  lon : Option ℚ := none
  altitude_ft : Option ℤ := none
  speed_kts : Option ℚ := none
  heading_deg : Option ℚ := none
  vertical_rate_fpm : Option ℤ := none
  squawk : Option String := none
  alert : Option Bool := none
  emergency : Option Bool := none
  spi : Option Bool := none
  on_ground : Option Bool := none
  last_update : Option String := none
deriving DecidableEq, Repr

/-- The position dict returned by `AircraftState.as_position`
(adsb.py lines 184-202). -/
structure PositionRecord where
  icao : String
  flight : String
  lat : ℚ
  lon : ℚ
  altitude_ft : Option ℤ
  speed_kts : Option ℚ
  heading_deg : Option ℚ
  vertical_rate_fpm : Option ℤ
  squawk : Option String
  alert : Option Bool
  emergency : Option Bool
  spi : Option Bool
  on_ground : Option Bool
deriving DecidableEq, Repr

/-- Model of `AircraftState.as_position` (adsb.py lines 184-202): a position dict if we
have at least a valid lat/lon, otherwise `None`. -/
def AircraftState.as_position (s : AircraftState) : Option PositionRecord :=
  match s.lat, s.lon with
  | some lat, some lon =>
    some
      { icao := s.icao, flight := s.flight, lat := lat, lon := lon
        altitude_ft := s.altitude_ft, speed_kts := s.speed_kts
        heading_deg := s.heading_deg, vertical_rate_fpm := s.vertical_rate_fpm
        squawk := s.squawk, alert := s.alert, emergency := s.emergency
        spi := s.spi, on_ground := s.on_ground }
  | _, _ => none

/-- The dict returned by the `lookup_aircraft_info` collaborator
(keys consumed in `_apply_aircraft_info`, adsb.py lines 230-237). -/
structure AircraftInfo where
  registration : Option String := none
  icao_type : Option String := none
  model : Option String := none
  is_pia : Option Bool := none
  is_ladd : Option Bool := none
  is_military : Option Bool := none
  is_interesting : Option Bool := none
deriving DecidableEq, Repr

/-- Python `new or old` on an optional string: an empty (falsy) new value
keeps the old one (adsb.py lines 230-232). -/
def orFalsy (new old : Option String) : Option String :=
  match new with
  | some s => if s = "" then old else some s
  | none => old

/-- The enrichment collaborator: a lookup that may raise (`Except.error`),
return no data (`none`), or return a metadata dict. -/
def LookupFn : Type := String → Except Unit (Option AircraftInfo)

/-- Model of `AircraftStateTracker._apply_aircraft_info` (adsb.py lines 218-237):
if a collaborator is configured, look the aircraft up; an exception or an
empty result leaves the state untouched; otherwise merge the metadata. -/
def applyAircraftInfo (lookup : Option LookupFn) (state : AircraftState) : AircraftState :=
  match lookup with
  | none => state
  | some f =>
    match f state.icao with
    | .error _ => state
    | .ok none => state
    | .ok (some info) =>
      { state with
        registration := orFalsy info.registration state.registration
        icao_type := orFalsy info.icao_type state.icao_type
        model := orFalsy info.model state.model
        is_pia := if info.is_pia.isSome then info.is_pia else state.is_pia
        is_ladd := if info.is_ladd.isSome then info.is_ladd else state.is_ladd
        is_military := if info.is_military.isSome then info.is_military else state.is_military
        is_interesting := if info.is_interesting.isSome then info.is_interesting else state.is_interesting }

/-- Lookup in the `_state` dict (`self._state.get(msg.icao)`). -/
def findState (l : List (String × AircraftState)) (icao : String) : Option AircraftState :=
  match l with
  | [] => none
  | (k, v) :: rest => if k = icao then some v else findState rest icao

/-- Store into the `_state` dict (`self._state[msg.icao] = state` followed by
in-place mutation): replace the entry if the key exists, else append. -/
def insertState (l : List (String × AircraftState)) (icao : String) (st : AircraftState) :
    List (String × AircraftState) :=
  match l with
  | [] => [(icao, st)]
  | (k, v) :: rest => if k = icao then (k, st) :: rest else (k, v) :: insertState rest icao st

/-- Model of `AircraftStateTracker` (adsb.py lines 205-216): the `_state` dict is an
association list; the optional enrichment collaborator may raise. -/
structure AircraftStateTracker where
  lookup_aircraft_info : Option LookupFn := none
  states : List (String × AircraftState) := []

/-- The field-merge portion of `AircraftStateTracker.update`
(adsb.py lines 246-266): every field present in the message overwrites the
state; `flight` and `squawk` use Python truthiness (an empty string is no
new value); absent message fields keep the stored value. -/
def mergeMessage (state : AircraftState) (msg : ParsedMessage) : AircraftState :=
  { state with
    flight := match msg.flight with | some s => if s = "" then state.flight else s | none => state.flight
    lat := if msg.lat.isSome then msg.lat else state.lat
    lon := if msg.lon.isSome then msg.lon else state.lon
    altitude_ft := if msg.altitude_ft.isSome then msg.altitude_ft else state.altitude_ft
    speed_kts := if msg.ground_speed_kts.isSome then msg.ground_speed_kts else state.speed_kts
    heading_deg := if msg.track_deg.isSome then msg.track_deg else state.heading_deg
    vertical_rate_fpm := if msg.vertical_rate_fpm.isSome then msg.vertical_rate_fpm else state.vertical_rate_fpm
    squawk := match msg.squawk with | some s => if s = "" then state.squawk else some s | none => state.squawk
    alert := if msg.alert.isSome then msg.alert else state.alert
    emergency := if msg.emergency.isSome then msg.emergency else state.emergency
    spi := if msg.spi.isSome then msg.spi else state.spi
    on_ground := if msg.on_ground.isSome then msg.on_ground else state.on_ground }

/-- Result of one `AircraftStateTracker.update` call, with the updated
tracker threaded explicitly and an instrumentation bit recording whether the
enrichment collaborator was invoked during this call. -/
structure UpdateResult where
  tracker : AircraftStateTracker
  position : Option PositionRecord
  has_full_velocity : Bool
  enrichInvoked : Bool

/-- The state `update` starts from (adsb.py lines 240-244): the stored state
if the aircraft is known, otherwise a fresh state passed through the
enrichment hook. -/
def initialState (t : AircraftStateTracker) (icao : String) : AircraftState :=
  match findState t.states icao with
  | some st => st
  | none => applyAircraftInfo t.lookup_aircraft_info { icao := icao }

/-- The merged state stored back by `update` (adsb.py lines 246-268). -/
def updatedState (t : AircraftStateTracker) (msg : ParsedMessage) (now : String) :
    AircraftState :=
  { mergeMessage (initialState t msg.icao) msg with last_update := some now }

/-- Model of `AircraftStateTracker.update` (adsb.py lines 239-275): look up or create
the state (invoking enrichment only on creation), merge the message, stamp
`last_update`, and return the position snapshot plus the full-kinematics
flag. -/
def AircraftStateTracker.update (t : AircraftStateTracker) (msg : ParsedMessage) (now : String) :
    UpdateResult :=
  let state1 := updatedState t msg now
  { tracker := { t with states := insertState t.states msg.icao state1 }
    position := state1.as_position
    has_full_velocity :=
      state1.as_position.isSome && state1.speed_kts.isSome && state1.heading_deg.isSome
    enrichInvoked := (findState t.states msg.icao).isNone && t.lookup_aircraft_info.isSome }

/-- Model of `AircraftStateTracker.get_state` (adsb.py lines 277-279). -/
def AircraftStateTracker.get_state (t : AircraftStateTracker) (icao : String) :
    Option AircraftState :=
  findState t.states icao

/-- Fold a sequence of messages through `update`. -/
def runUpdates (t : AircraftStateTracker) (msgs : List ParsedMessage) (now : String) :
    AircraftStateTracker :=
  msgs.foldl (fun acc m => (acc.update m now).tracker) t

/-- Run a sequence of messages through `update`, also collecting the list of
aircraft identifiers for which the enrichment collaborator was invoked, in
invocation order. -/
def runTrace (t : AircraftStateTracker) (msgs : List ParsedMessage) (now : String) :
    AircraftStateTracker × List String :=
  match msgs with
  | [] => (t, [])
  | m :: rest =>
    let r := t.update m now
    let p := runTrace r.tracker rest now
    (p.1, (if r.enrichInvoked then [m.icao] else []) ++ p.2)

/-- Feed raw lines through `parse_sbs_line` and `update`, skipping
undecodable lines (the read-loop behaviour of the callers).  A line on
which the decoder raises reaches no `update` either (the exception
propagates out of the real read loop), so it is skipped here as well: every
tracker this run produces is one the real loop can hold, prefixes
included. -/
def runParsedLines (t : AircraftStateTracker) (lines : List String) (now : String) :
    AircraftStateTracker :=
  lines.foldl
    (fun acc line =>
      match parse_sbs_line line with
      | .ok (some m) => (acc.update m now).tracker
      | _ => acc)
    t

/-- JSON-serializable values appearing in built events. -/
inductive JVal where
  | s (v : String)
  | q (v : ℚ)
  | i (v : ℤ)
  | b (v : Bool)
deriving DecidableEq, Repr

/-- The constant `EVENT_TYPE` (adsb.py line 20). -/
def EVENT_TYPE : String := "adsb.position.v1"

/-- Model of `_drop_none` (adsb.py lines 297-299): strip `None` values while retaining
valid falsy values like `False`/`0`.  A dict literal with optional values is
a list of key/optional-value pairs; the result keeps exactly the non-null
entries, in order. -/
def drop_none (values : List (String × Option JVal)) : List (String × JVal) :=
  values.filterMap (fun kv => kv.2.map (fun v => (kv.1, v)))

/-- The event dict built by `build_adsb_position_event`
(adsb.py lines 369-377). -/
structure Event where
  eventType : String
  source : String
  tsUnixMs : ℤ
  aircraft : List (String × JVal)
  position : List (String × JVal)
  codes : List (String × JVal)
  raw : List (String × JVal)
deriving DecidableEq, Repr

/-- The `aircraft` block of `build_adsb_position_event`
(adsb.py lines 323-336). -/
def aircraftBlock (state : AircraftState) : List (String × JVal) :=
  drop_none
    [ ("icaoHex", some (JVal.s state.icao))
    , ("callsign", if state.flight = "" then none else some (JVal.s state.flight))
    , ("registration", state.registration.map JVal.s)
    , ("icaoType", state.icao_type.map JVal.s)
    , ("model", state.model.map JVal.s)
    , ("isMilitary", state.is_military.map JVal.b)
    , ("isInteresting", state.is_interesting.map JVal.b)
    , ("isPIA", state.is_pia.map JVal.b)
    , ("isLADD", state.is_ladd.map JVal.b) ]

/-- The `position` block of `build_adsb_position_event`
(adsb.py lines 338-347). -/
def positionBlock (state : AircraftState) : List (String × JVal) :=
  drop_none
    [ ("lat", state.lat.map JVal.q)
    , ("lon", state.lon.map JVal.q)
    , ("altitudeFt", state.altitude_ft.map JVal.i)
    , ("groundSpeedKts", state.speed_kts.map JVal.q)
    , ("trackDeg", state.heading_deg.map JVal.q)
    , ("verticalRateFpm", state.vertical_rate_fpm.map JVal.i) ]

/-- The `codes` block of `build_adsb_position_event`
(adsb.py lines 349-357). -/
def codesBlock (state : AircraftState) : List (String × JVal) :=
  drop_none
    [ ("squawk", state.squawk.map JVal.s)
    , ("alert", state.alert.map JVal.b)
    , ("emergency", state.emergency.map JVal.b)
    , ("spi", state.spi.map JVal.b)
    , ("onGround", state.on_ground.map JVal.b) ]

/-- The `raw` block of `build_adsb_position_event`
(adsb.py lines 359-365). -/
def rawBlock (raw_sbs : Option String) (message_type : Option String)
    (transmission_type : Option ℤ) : List (String × JVal) :=
  drop_none
    [ ("sbs", raw_sbs.map JVal.s)
    , ("messageType", message_type.map JVal.s)
    , ("transmissionType", transmission_type.map JVal.i) ]

/-- Model of `build_adsb_position_event` (adsb.py lines 302-377): build a
JSON-serializable ADS-B position event from an `AircraftState`; raises
(`Except.error`) when the state lacks lat/lon.  `now_ms` models
`int(time.time() * 1000)`. -/
def build_adsb_position_event (state : AircraftState) (source : String)
    (raw_sbs : Option String) (message_type : Option String)
    (transmission_type : Option ℤ) (timestamp_ms : Option ℤ) (now_ms : ℤ) :
    Except String Event :=
  if state.lat = none ∨ state.lon = none then
    .error "Cannot build ADS-B position event without lat/lon"
  else
    let ts_ms := match timestamp_ms with | some t => t | none => now_ms
    .ok
      { eventType := EVENT_TYPE, source := source, tsUnixMs := ts_ms
        aircraft := aircraftBlock state, position := positionBlock state
        codes := codesBlock state
        raw := rawBlock raw_sbs message_type transmission_type }

/-- The dict returned by the legacy decoder `parse_sbs_line` of
`src/adsb_to_csv.py` (lines 118-129). -/
structure LegacyParsed where
  icao : String
  flight : Option String := none
  lat : Option ℚ := none
  lon : Option ℚ := none
  altitude_ft : Option ℤ := none
  speed_kts : Option ℚ := none
  heading_deg : Option ℚ := none
  squawk : Option String := none
  has_position : Bool := false
deriving DecidableEq, Repr

/-- The record the legacy decoder assembles on acceptance
(src/adsb_to_csv.py lines 118-129); the altitude is passed in because its
conversion is the one that can raise. -/
def legacyBuild (fields : List String) (alt : Option ℤ) : LegacyParsed :=
  { icao := pyStrip (fieldAt fields 4)
    flight := extractCallsign fields
    altitude_ft := alt
    speed_kts := extractGroundSpeed fields
    heading_deg := extractTrack fields
    lat := (extractPosition fields).map Prod.fst
    lon := (extractPosition fields).map Prod.snd
    has_position := (extractPosition fields).isSome
    squawk := extractSquawk fields }

/-- The legacy decoder `parse_sbs_line` (src/adsb_to_csv.py lines 91-184).
Its per-field extraction statements (callsign, altitude, speed, heading,
lat/lon pair, squawk) are textually identical to the library decoder's, so
the same `extract*` functions embed them; the differences kept here are:
`fields[0]` is compared to `"MSG"` without stripping, the ICAO is stripped
but not upper-cased, and no vertical rate is parsed — field 16 is never
converted, so the legacy decoder's only escaping `OverflowError` path is
the altitude conversion it shares with the library decoder
(adsb_to_csv.py lines 142-146). -/
def legacy_parse_sbs_line (line : String) : Except Unit (Option LegacyParsed) :=
  let stripped := pyStrip line
  if stripped = "" then .ok none
  else
    let fields := pySplit stripped
    if fields.length < 5 ∨ fieldAt fields 0 ≠ "MSG" then .ok none
    else
      let icao := pyStrip (fieldAt fields 4)
      if icao = "" then .ok none
      else
        match extractAltitude fields with
        | .error e => .error e
        | .ok alt => .ok (some (legacyBuild fields alt))

/-! ### Characterisation of the decoder -/

lemma pyUpper_empty_iff (s : String) : pyUpper s = "" ↔ s = "" := by
  constructor
  · intro h
    have hd : s.data.map Char.toUpper = [] := congrArg String.data h
    exact String.ext (List.map_eq_nil_iff.mp hd)
  · intro h
    rw [h]
    rfl

lemma parse_sbs_line_none_iff (line : String) :
    parse_sbs_line line = .ok none ↔
      pyStrip line = "" ∨ (pySplit (pyStrip line)).length < 5 ∨
      pyStrip (fieldAt (pySplit (pyStrip line)) 0) ≠ "MSG" ∨
      pyStrip (fieldAt (pySplit (pyStrip line)) 4) = "" := by
  simp only [parse_sbs_line]
  split_ifs with h1 h2 h3 h4
  · simp [h1]
  · simp [h1, h2]
  · simp [h1, h2, h3]
  · exact iff_of_true rfl (Or.inr (Or.inr (Or.inr ((pyUpper_empty_iff _).mp h4))))
  · have h4' : ¬ pyStrip (fieldAt (pySplit (pyStrip line)) 4) = "" :=
      fun he => h4 ((pyUpper_empty_iff _).mpr he)
    rcases ha : extractAltitude (pySplit (pyStrip line)) with e | alt
    · simp [ha, h1, h2, h3, h4']
    · rcases hv : extractVerticalRate (pySplit (pyStrip line)) with e2 | vr
      · simp [ha, hv, h1, h2, h3, h4']
      · simp [ha, hv, h1, h2, h3, h4']

lemma parse_sbs_line_error_iff (line : String) :
    parse_sbs_line line = .error () ↔
      ¬ (pyStrip line = "" ∨ (pySplit (pyStrip line)).length < 5 ∨
          pyStrip (fieldAt (pySplit (pyStrip line)) 0) ≠ "MSG" ∨
          pyStrip (fieldAt (pySplit (pyStrip line)) 4) = "") ∧
      (extractAltitude (pySplit (pyStrip line)) = .error () ∨
        extractVerticalRate (pySplit (pyStrip line)) = .error ()) := by
  simp only [parse_sbs_line]
  split_ifs with h1 h2 h3 h4
  · simp [h1]
  · simp [h1, h2]
  · simp [h1, h2, h3]
  · simp [h1, h2, h3, (pyUpper_empty_iff _).mp h4]
  · have h4' : ¬ pyStrip (fieldAt (pySplit (pyStrip line)) 4) = "" :=
      fun he => h4 ((pyUpper_empty_iff _).mpr he)
    rcases ha : extractAltitude (pySplit (pyStrip line)) with ⟨⟩ | alt
    · simp [ha, h1, h2, h3, h4']
    · rcases hv : extractVerticalRate (pySplit (pyStrip line)) with ⟨⟩ | vr
      · simp [ha, hv, h1, h2, h3, h4']
      · simp [ha, hv, h1, h2, h3, h4']

lemma parse_sbs_line_some_eq (line : String) (m : ParsedMessage)
    (h : parse_sbs_line line = .ok (some m)) :
    extractAltitude (pySplit (pyStrip line)) = .ok m.altitude_ft ∧
    extractVerticalRate (pySplit (pyStrip line)) = .ok m.vertical_rate_fpm ∧
    m = buildParsedMessage (pyStrip line) (pySplit (pyStrip line))
        m.altitude_ft m.vertical_rate_fpm := by
  simp only [parse_sbs_line] at h
  split_ifs at h <;> try simp_all
  rcases ha : extractAltitude (pySplit (pyStrip line)) with e | alt <;> rw [ha] at h
  · cases h
  rcases hv : extractVerticalRate (pySplit (pyStrip line)) with e2 | vr <;> rw [hv] at h
  · cases h
  obtain rfl : buildParsedMessage (pyStrip line) (pySplit (pyStrip line)) alt vr = m :=
    Option.some.inj (Except.ok.inj h)
  exact ⟨rfl, rfl, rfl⟩

/-- The acceptance condition for the latitude/longitude pair, stated as in
the specification: more than 15 fields, fields 14 and 15 non-empty after
stripping, both parsing as finite floats, and within `[-90,90]` /
`[-180,180]`. -/
def posAccept (fields : List String) : Prop :=
  fields.length > 15 ∧
  pyStrip (fieldAt fields 14) ≠ "" ∧ pyStrip (fieldAt fields 15) ≠ "" ∧
  ∃ la lo, pyFloat (pyStrip (fieldAt fields 14)) = some (PyFloatVal.finite la) ∧
    pyFloat (pyStrip (fieldAt fields 15)) = some (PyFloatVal.finite lo) ∧
    -90 ≤ la ∧ la ≤ 90 ∧ -180 ≤ lo ∧ lo ≤ 180

lemma extractPosition_eq_some_iff (fields : List String) (la lo : ℚ) :
    extractPosition fields = some (la, lo) ↔
      fields.length > 15 ∧
      pyStrip (fieldAt fields 14) ≠ "" ∧ pyStrip (fieldAt fields 15) ≠ "" ∧
      pyFloat (pyStrip (fieldAt fields 14)) = some (PyFloatVal.finite la) ∧
      pyFloat (pyStrip (fieldAt fields 15)) = some (PyFloatVal.finite lo) ∧
      -90 ≤ la ∧ la ≤ 90 ∧ -180 ≤ lo ∧ lo ≤ 180 := by
  constructor
  · intro h
    simp only [extractPosition] at h
    split_ifs at h with h1 h2
    rcases hla : pyFloat (pyStrip (fieldAt fields 14)) with _ | vla
    · rw [hla] at h
      exact Option.noConfusion h
    rcases hlo : pyFloat (pyStrip (fieldAt fields 15)) with _ | vlo
    · rw [hla, hlo] at h
      rcases vla with qa | _ | _ | _ <;> exact Option.noConfusion h
    rw [hla, hlo] at h
    rcases vla with qa | _ | _ | _ <;> rcases vlo with qb | _ | _ | _ <;>
      try exact Option.noConfusion h
    have h9 : (if -90 ≤ qa ∧ qa ≤ 90 ∧ -180 ≤ qb ∧ qb ≤ 180
        then some (qa, qb) else (none : Option (ℚ × ℚ))) = some (la, lo) := h
    split_ifs at h9 with h3
    have hqa : qa = la := congrArg Prod.fst (Option.some.inj h9)
    have hqb : qb = lo := congrArg Prod.snd (Option.some.inj h9)
    subst hqa
    subst hqb
    exact ⟨h1, h2.1, h2.2, rfl, rfl, h3.1, h3.2.1, h3.2.2.1, h3.2.2.2⟩
  · rintro ⟨h1, h2, h3, h4, h5, h6, h7, h8, h9⟩
    simp only [extractPosition, h4, h5]
    rw [if_pos h1, if_pos ⟨h2, h3⟩, if_pos ⟨h6, h7, h8, h9⟩]

lemma extractPosition_isSome_iff (fields : List String) :
    (extractPosition fields).isSome ↔ posAccept fields := by
  unfold posAccept
  constructor
  · intro h
    rcases Option.isSome_iff_exists.mp h with ⟨⟨la, lo⟩, hp⟩
    rcases (extractPosition_eq_some_iff fields la lo).mp hp with
      ⟨h1, h2, h3, h4, h5, h6, h7, h8, h9⟩
    exact ⟨h1, h2, h3, la, lo, h4, h5, h6, h7, h8, h9⟩
  · rintro ⟨h1, h2, h3, la, lo, h4, h5, h6, h7, h8, h9⟩
    rw [(extractPosition_eq_some_iff fields la lo).mpr ⟨h1, h2, h3, h4, h5, h6, h7, h8, h9⟩]
    rfl

/-- A line whose altitude field is the float spelling `inf`: `float`
succeeds and `int` raises an uncaught `OverflowError`. -/
def lineInfAlt : String := "MSG,1,1,1,ABC,1,1,1,1,1,1,inf"

/-- C4 counterexample: on `lineInfAlt` — a line that passes every
decodability guard — the altitude conversion `int(float("inf"))` raises
`OverflowError`, which the source's `except ValueError` does not catch, so
`parse_sbs_line` raises instead of returning a message or `None`: it is not
exception-free, and the bad altitude field aborts the whole line rather
than being left absent. -/
theorem C4_overflow_counterexample :
    parse_sbs_line lineInfAlt = .error () ∧
    ¬ (pyStrip lineInfAlt = "" ∨ (pySplit (pyStrip lineInfAlt)).length < 5 ∨
        pyStrip (fieldAt (pySplit (pyStrip lineInfAlt)) 0) ≠ "MSG" ∨
        pyStrip (fieldAt (pySplit (pyStrip lineInfAlt)) 4) = "") :=
  ⟨by decide, by decide⟩

/-- C4 (amended): `parse_sbs_line` returns `None` exactly when the stripped
line is empty, splits into fewer than 5 comma-separated fields, has a field
0 that (after stripping) is not the literal `"MSG"`, or has an empty field
4; it raises — an uncaught `OverflowError`, the only exception that
escapes, every other conversion failure being a caught `ValueError` —
exactly when the line passes those guards and the altitude or vertical-rate
field converts to an infinite float; otherwise it returns a `ParsedMessage`
whose aircraft identifier is field 4 uppercased, where every data field is
computed by its own extractor from its own source fields, so a field whose
conversion fails with a `ValueError` is left absent for that field only,
without discarding the rest of the line. -/
theorem C4_none_error_iff (line : String) :
    (parse_sbs_line line = .ok none ↔
      pyStrip line = "" ∨ (pySplit (pyStrip line)).length < 5 ∨
      pyStrip (fieldAt (pySplit (pyStrip line)) 0) ≠ "MSG" ∨
      pyStrip (fieldAt (pySplit (pyStrip line)) 4) = "") ∧
    (parse_sbs_line line = .error () ↔
      ¬ (pyStrip line = "" ∨ (pySplit (pyStrip line)).length < 5 ∨
          pyStrip (fieldAt (pySplit (pyStrip line)) 0) ≠ "MSG" ∨
          pyStrip (fieldAt (pySplit (pyStrip line)) 4) = "") ∧
      (extractAltitude (pySplit (pyStrip line)) = .error () ∨
        extractVerticalRate (pySplit (pyStrip line)) = .error ())) ∧
    ∀ m, parse_sbs_line line = .ok (some m) →
      m.raw = pyStrip line ∧
      m.icao = pyUpper (pyStrip (fieldAt (pySplit (pyStrip line)) 4)) ∧
      m.message_type = pyStrip (fieldAt (pySplit (pyStrip line)) 0) ∧
      m.transmission_type = extractTransmissionType (pySplit (pyStrip line)) ∧
      m.callsign = extractCallsign (pySplit (pyStrip line)) ∧
      extractAltitude (pySplit (pyStrip line)) = .ok m.altitude_ft ∧
      m.ground_speed_kts = extractGroundSpeed (pySplit (pyStrip line)) ∧
      m.track_deg = extractTrack (pySplit (pyStrip line)) ∧
      m.lat = (extractPosition (pySplit (pyStrip line))).map Prod.fst ∧
      m.lon = (extractPosition (pySplit (pyStrip line))).map Prod.snd ∧
      m.has_position = (extractPosition (pySplit (pyStrip line))).isSome ∧
      extractVerticalRate (pySplit (pyStrip line)) = .ok m.vertical_rate_fpm ∧
      m.squawk = extractSquawk (pySplit (pyStrip line)) ∧
      m.alert = extractFlag (pySplit (pyStrip line)) 18 ∧
      m.emergency = extractFlag (pySplit (pyStrip line)) 19 ∧
      m.spi = extractFlag (pySplit (pyStrip line)) 20 ∧
      m.on_ground = extractFlag (pySplit (pyStrip line)) 21 := by
  refine ⟨parse_sbs_line_none_iff line, parse_sbs_line_error_iff line, ?_⟩
  intro m h
  obtain ⟨ha, hv, hm⟩ := parse_sbs_line_some_eq line m h
  rw [hm]
  exact ⟨rfl, rfl, rfl, rfl, rfl, hm ▸ ha, rfl, rfl, rfl, rfl, rfl, hm ▸ hv, rfl, rfl, rfl,
    rfl, rfl⟩

/-- A malformed-but-decodable SBS line: lower-case ICAO, unparseable
altitude, absent callsign, valid speed and squawk, flag field `x`. -/
def lineC4 : String := "MSG,1,1,1,3c5ef2,1,D,T,D,T,,abc,376,,,,,7000,1,x,,"

/-- The decoded form of `lineC4`. -/
def msgC4 : ParsedMessage :=
  { raw := "MSG,1,1,1,3c5ef2,1,D,T,D,T,,abc,376,,,,,7000,1,x,,"
    message_type := "MSG"
    transmission_type := some 1
    icao := "3C5EF2"
    ground_speed_kts := some 376
    squawk := some "7000"
    alert := some true }

theorem C4_none_error_iff_witness :
    parse_sbs_line lineC4 = .ok (some msgC4) ∧
    msgC4.icao = pyUpper (pyStrip (fieldAt (pySplit (pyStrip lineC4)) 4)) ∧
    extractAltitude (pySplit (pyStrip lineC4)) = .ok msgC4.altitude_ft ∧
    msgC4.ground_speed_kts = extractGroundSpeed (pySplit (pyStrip lineC4)) ∧
    msgC4.squawk = extractSquawk (pySplit (pyStrip lineC4)) ∧
    msgC4.emergency = extractFlag (pySplit (pyStrip lineC4)) 19 := by
  have h : parse_sbs_line lineC4 = .ok (some msgC4) := by decide
  have hc := (C4_none_error_iff lineC4).2.2 msgC4 h
  exact ⟨h, hc.2.1, hc.2.2.2.2.2.1, hc.2.2.2.2.2.2.1, hc.2.2.2.2.2.2.2.2.2.2.2.2.1,
    hc.2.2.2.2.2.2.2.2.2.2.2.2.2.2.1⟩

/-- C3: in every message decoded by `parse_sbs_line`, latitude and longitude
are set only as a pair: both set with `has_position` true exactly when the
line has more than 15 comma-separated fields whose fields 14 and 15 are
non-empty, parse as (finite) floats, and lie within `[-90,90]` and
`[-180,180]`; in every other case both are absent and `has_position` is
false, and neither coordinate is ever set individually. -/
theorem C3_latlon_pairwise (line : String) (m : ParsedMessage)
    (h : parse_sbs_line line = .ok (some m)) :
    (m.has_position = true ↔ posAccept (pySplit (pyStrip line))) ∧
    (m.lat.isSome ↔ m.has_position = true) ∧
    (m.lon.isSome ↔ m.has_position = true) ∧
    (∀ la lo,
      pyFloat (pyStrip (fieldAt (pySplit (pyStrip line)) 14)) = some (PyFloatVal.finite la) →
      pyFloat (pyStrip (fieldAt (pySplit (pyStrip line)) 15)) = some (PyFloatVal.finite lo) →
      m.has_position = true → m.lat = some la ∧ m.lon = some lo) ∧
    (¬ posAccept (pySplit (pyStrip line)) →
      m.lat = none ∧ m.lon = none ∧ m.has_position = false) := by
  rw [(parse_sbs_line_some_eq line m h).2.2]
  simp only [buildParsedMessage]
  rcases hP : extractPosition (pySplit (pyStrip line)) with _ | p
  · have hna : ¬ posAccept (pySplit (pyStrip line)) := by
      rw [← extractPosition_isSome_iff, hP]
      simp
    simp [hP, hna]
  · obtain ⟨la0, lo0⟩ := p
    have hacc : posAccept (pySplit (pyStrip line)) := by
      rw [← extractPosition_isSome_iff, hP]
      rfl
    have hch := (extractPosition_eq_some_iff (pySplit (pyStrip line)) la0 lo0).mp hP
    refine ⟨by simp [hacc], by simp, by simp, ?_, fun hn => absurd hacc hn⟩
    intro la lo hla hlo _
    have h14 : la0 = la :=
      PyFloatVal.finite.inj (Option.some.inj ((hch.2.2.2.1).symm.trans hla))
    have h15 : lo0 = lo :=
      PyFloatVal.finite.inj (Option.some.inj ((hch.2.2.2.2.1).symm.trans hlo))
    subst h14
    subst h15
    exact ⟨rfl, rfl⟩

/-- The specification's end-to-end scenario 2 line, with latitude `95.0`. -/
def lineLat95 : String := "MSG,3,1,1,3C5EF2,1,D,T,D,T,EWG4TV,38000,376,158,95.0,8.936,,,0,0,0,0"

/-- The decoded form of `lineLat95`: the out-of-range latitude rejects the
whole pair. -/
def msgLat95 : ParsedMessage :=
  { raw := "MSG,3,1,1,3C5EF2,1,D,T,D,T,EWG4TV,38000,376,158,95.0,8.936,,,0,0,0,0"
    message_type := "MSG"
    transmission_type := some 3
    icao := "3C5EF2"
    callsign := some "EWG4TV"
    altitude_ft := some 38000
    ground_speed_kts := some 376
    track_deg := some 158
    alert := some false
    emergency := some false
    spi := some false
    on_ground := some false }

theorem C3_latlon_pairwise_witness :
    parse_sbs_line lineLat95 = .ok (some msgLat95) ∧
    (msgLat95.lat = none ∧ msgLat95.lon = none ∧ msgLat95.has_position = false) := by
  have h : parse_sbs_line lineLat95 = .ok (some msgLat95) := by decide
  refine ⟨h, (C3_latlon_pairwise lineLat95 msgLat95 h).2.2.2.2 ?_⟩
  rintro ⟨-, -, -, la, lo, hla, hlo, -, h90, -⟩
  have hvla : pyFloat (pyStrip (fieldAt (pySplit (pyStrip lineLat95)) 14))
      = some (PyFloatVal.finite (mkRat 950 10)) := by
    decide
  have : la = mkRat 950 10 := PyFloatVal.finite.inj (Option.some.inj (hla.symm.trans hvla))
  rw [this] at h90
  exact absurd h90 (by decide)

/-! ### Tracker lemmas -/

lemma findState_insertState_self (l : List (String × AircraftState)) (k : String)
    (st : AircraftState) : findState (insertState l k st) k = some st := by
  induction l with
  | nil => simp [insertState, findState]
  | cons p rest ih =>
    obtain ⟨a, b⟩ := p
    by_cases h : a = k <;> simp [insertState, findState, h, ih]

lemma findState_insertState_ne (l : List (String × AircraftState)) (k k2 : String)
    (st : AircraftState) (h : k2 ≠ k) :
    findState (insertState l k st) k2 = findState l k2 := by
  induction l with
  | nil => simp [insertState, findState, Ne.symm h]
  | cons p rest ih =>
    obtain ⟨a, b⟩ := p
    by_cases h2 : a = k
    · subst h2
      simp [insertState, findState, Ne.symm h, ih]
    · simp [insertState, findState, h2, ih]

lemma applyAircraftInfo_preserves (lookup : Option LookupFn) (st : AircraftState) :
    (applyAircraftInfo lookup st).icao = st.icao ∧
    (applyAircraftInfo lookup st).flight = st.flight ∧
    (applyAircraftInfo lookup st).lat = st.lat ∧
    (applyAircraftInfo lookup st).lon = st.lon ∧
    (applyAircraftInfo lookup st).altitude_ft = st.altitude_ft ∧
    (applyAircraftInfo lookup st).speed_kts = st.speed_kts ∧
    (applyAircraftInfo lookup st).heading_deg = st.heading_deg ∧
    (applyAircraftInfo lookup st).vertical_rate_fpm = st.vertical_rate_fpm ∧
    (applyAircraftInfo lookup st).squawk = st.squawk ∧
    (applyAircraftInfo lookup st).alert = st.alert ∧
    (applyAircraftInfo lookup st).emergency = st.emergency ∧
    (applyAircraftInfo lookup st).spi = st.spi ∧
    (applyAircraftInfo lookup st).on_ground = st.on_ground ∧
    (applyAircraftInfo lookup st).last_update = st.last_update := by
  unfold applyAircraftInfo
  rcases lookup with _ | f
  · simp
  · rcases h : f st.icao with e | oi
    · simp [h]
    · rcases oi with _ | info <;> simp [h]

lemma as_position_isSome_iff (st : AircraftState) :
    st.as_position.isSome ↔ st.lat.isSome ∧ st.lon.isSome := by
  rcases hla : st.lat with _ | a <;> rcases hlo : st.lon with _ | b <;>
    simp [AircraftState.as_position, hla, hlo]

/-! ### Claims C5 and C2 -/

/-- Line 1 of the specification's end-to-end scenario 1. -/
def lineA : String := "MSG,3,1,1,3C5EF2,1,D,T,D,T,EWG4TV,38000,376,158,45.630,8.936,,,0,0,0,0"

/-- Line 2 of the specification's end-to-end scenario 1. -/
def lineB : String := "MSG,4,1,1,3C5EF2,1,D,T,D,T,EWG4TV,38000,380,160,,,,,,,,"

/-- The update result of feeding line 1 of scenario 1 into a fresh tracker
(without an enrichment collaborator). -/
def c5FirstResult : Option UpdateResult :=
  match parse_sbs_line lineA with
  | .ok (some m) => some (AircraftStateTracker.update ⟨none, []⟩ m "t1")
  | _ => none

/-- Both update results of feeding lines 1 and 2 of scenario 1, in order,
into a fresh tracker. -/
def c5Run : Option (UpdateResult × UpdateResult) :=
  match parse_sbs_line lineA, parse_sbs_line lineB with
  | .ok (some m1), .ok (some m2) =>
    let r1 := AircraftStateTracker.update ⟨none, []⟩ m1 "t1"
    let r2 := r1.tracker.update m2 "t2"
    some (r1, r2)
  | _, _ => none

/-- C5 counterexample: line 1 of the scenario carries ground speed `376` in
field 12 and track `158` in field 13, so already after line 1 the snapshot
has `hasFullKinematics = true` and `heading_deg = 158` — not
`hasFullKinematics = false` and `heading_deg = null` as the claim states. -/
theorem C5_scenario_counterexample :
    c5FirstResult.map (fun r => r.has_full_velocity) = some true ∧
    c5FirstResult.map (fun r => r.position.map (fun q => q.heading_deg))
      = some (some (some 158)) := by
  constructor
  · decide
  · decide

/-- C5 amended: feeding the two scenario lines through `parse_sbs_line` and
`update` on a fresh tracker yields after line 1 a snapshot with
`speed_kts = 376`, `heading_deg = 158` and `hasFullKinematics = true`, and
after line 2 a snapshot with `speed_kts = 380`, `heading_deg = 160` and
`hasFullKinematics = true`. -/
theorem C5_scenario_amended :
    c5Run.map (fun p => p.1.position.isSome) = some true ∧
    c5Run.map (fun p => p.1.has_full_velocity) = some true ∧
    c5Run.map (fun p => p.1.position.map (fun q => q.speed_kts)) = some (some (some 376)) ∧
    c5Run.map (fun p => p.1.position.map (fun q => q.heading_deg)) = some (some (some 158)) ∧
    c5Run.map (fun p => p.2.position.map (fun q => q.speed_kts)) = some (some (some 380)) ∧
    c5Run.map (fun p => p.2.position.map (fun q => q.heading_deg)) = some (some (some 160)) ∧
    c5Run.map (fun p => p.2.has_full_velocity) = some true := by
  exact ⟨by decide, by decide, by decide, by decide, by decide, by decide, by decide⟩

/-- C2: `update` returns a snapshot exactly when the merged state has both
latitude and longitude; the first message of an unseen aircraft without a
position yields no snapshot; and `hasFullKinematics` is true exactly when
the snapshot exists and the merged state also has a ground speed and a track
angle (wherever those came from). -/
theorem C2_snapshot_iff_latlon (t : AircraftStateTracker) (msg : ParsedMessage) (now : String) :
    ∃ st, (t.update msg now).tracker.get_state msg.icao = some st ∧
      ((t.update msg now).position.isSome ↔ st.lat.isSome ∧ st.lon.isSome) ∧
      ((t.update msg now).has_full_velocity = true ↔
        (t.update msg now).position.isSome ∧ st.speed_kts.isSome ∧ st.heading_deg.isSome) ∧
      (t.get_state msg.icao = none → msg.lat = none → msg.lon = none →
        (t.update msg now).position = none) := by
  refine ⟨updatedState t msg now, ?_, ?_, ?_, ?_⟩
  · exact findState_insertState_self ..
  · exact as_position_isSome_iff _
  · show ((updatedState t msg now).as_position.isSome
      && (updatedState t msg now).speed_kts.isSome
      && (updatedState t msg now).heading_deg.isSome) = true ↔
      (updatedState t msg now).as_position.isSome = true ∧
      (updatedState t msg now).speed_kts.isSome = true ∧
      (updatedState t msg now).heading_deg.isSome = true
    simp [Bool.and_eq_true, and_assoc]
  · intro hns hlat hlon
    have hinit : (initialState t msg.icao).lat = none := by
      unfold initialState
      rw [show findState t.states msg.icao = none from hns]
      exact (applyAircraftInfo_preserves t.lookup_aircraft_info _).2.2.1
    have hl : (updatedState t msg now).lat = none := by
      simp [updatedState, mergeMessage, hlat, hinit]
    show (updatedState t msg now).as_position = none
    simp [AircraftState.as_position, hl]

theorem C2_snapshot_iff_latlon_witness :
    ((AircraftStateTracker.mk none []).update msgLat95 "t1").position = none := by
  obtain ⟨st, hst, h1, h2, h3⟩ := C2_snapshot_iff_latlon ⟨none, []⟩ msgLat95 "t1"
  exact h3 rfl rfl rfl

/-! ### Claims C6 and C7 -/

/-- C6: `build_adsb_position_event` raises exactly when the state lacks
latitude or longitude; when both are present it always returns an event
(for every combination of the remaining arguments) whose position block
carries the state's own coordinates — no defaults are substituted. -/
theorem C6_build_raises_iff (state : AircraftState) (source : String)
    (raw_sbs : Option String) (message_type : Option String)
    (transmission_type : Option ℤ) (timestamp_ms : Option ℤ) (now_ms : ℤ) :
    ((∃ e, build_adsb_position_event state source raw_sbs message_type transmission_type
        timestamp_ms now_ms = .error e) ↔ state.lat = none ∨ state.lon = none) ∧
    (∀ la lo, state.lat = some la → state.lon = some lo →
      ∃ ev, build_adsb_position_event state source raw_sbs message_type transmission_type
          timestamp_ms now_ms = .ok ev ∧
        ("lat", JVal.q la) ∈ ev.position ∧ ("lon", JVal.q lo) ∈ ev.position) := by
  unfold build_adsb_position_event
  by_cases h : state.lat = none ∨ state.lon = none
  · rw [if_pos h]
    refine ⟨⟨fun _ => h, fun _ => ⟨_, rfl⟩⟩, ?_⟩
    intro la lo hla hlo
    rcases h with h | h <;> simp_all
  · rw [if_neg h]
    push_neg at h
    refine ⟨⟨?_, ?_⟩, ?_⟩
    · rintro ⟨e, he⟩
      cases he
    · intro hc
      rcases hc with hc | hc
      · exact absurd hc h.1
      · exact absurd hc h.2
    · intro la lo hla hlo
      refine ⟨_, rfl, ?_, ?_⟩
      · simp [positionBlock, drop_none, hla, hlo]
      · simp [positionBlock, drop_none, hla, hlo]

/-- A state with a full position, used to instantiate the event-builder
claims. -/
def stTest : AircraftState :=
  { icao := "3C5EF2", flight := "EWG4TV", lat := some 45, lon := some 9
    altitude_ft := some 0, alert := some false, on_ground := some false }

theorem C6_build_raises_iff_witness :
    (∃ e, build_adsb_position_event { icao := "4CA1FA" } "station" none none none none 0
      = .error e) ∧
    (∃ ev, build_adsb_position_event stTest "station" none none none none 0 = .ok ev ∧
      ("lat", JVal.q 45) ∈ ev.position ∧ ("lon", JVal.q 9) ∈ ev.position) :=
  ⟨(C6_build_raises_iff { icao := "4CA1FA" } "station" none none none none 0).1.mpr
      (Or.inl rfl),
    (C6_build_raises_iff stTest "station" none none none none 0).2 45 9 rfl rfl⟩

/-- A block contains a key. -/
def hasKey (block : List (String × JVal)) (k : String) : Prop := ∃ v, (k, v) ∈ block

lemma hasKey_drop_none (values : List (String × Option JVal)) (k : String) :
    hasKey (drop_none values) k ↔ ∃ p ∈ values, p.1 = k ∧ p.2.isSome := by
  unfold hasKey drop_none
  constructor
  · rintro ⟨v, hv⟩
    rcases List.mem_filterMap.mp hv with ⟨⟨k2, ov⟩, hmem, hmap⟩
    rcases ov with _ | v2
    · cases hmap
    · obtain ⟨hk, -⟩ := Prod.mk.injEq .. ▸ Option.some.inj hmap
      exact ⟨(k2, some v2), hmem, hk, rfl⟩
  · rintro ⟨⟨k2, ov⟩, hmem, hk, hs⟩
    rcases ov with _ | v2
    · cases hs
    · subst hk
      exact ⟨v2, List.mem_filterMap.mpr ⟨(k2, some v2), hmem, rfl⟩⟩

/-- C7: in every event built by `build_adsb_position_event`, each of the
`aircraft`, `position`, `codes` and `raw` blocks contains a key exactly when
the corresponding value is non-null: explicitly false booleans and zero
numbers are retained (presence depends only on `isSome`, never on the
value), null fields are omitted, and `callsign` is omitted exactly when the
state's `flight` string is empty. -/
theorem C7_blocks_drop_none (state : AircraftState) (source : String)
    (raw_sbs : Option String) (message_type : Option String)
    (transmission_type : Option ℤ) (timestamp_ms : Option ℤ) (now_ms : ℤ) (ev : Event)
    (h : build_adsb_position_event state source raw_sbs message_type transmission_type
      timestamp_ms now_ms = .ok ev) :
    hasKey ev.aircraft "icaoHex" ∧
    (hasKey ev.aircraft "callsign" ↔ state.flight ≠ "") ∧
    (hasKey ev.aircraft "registration" ↔ state.registration ≠ none) ∧
    (hasKey ev.aircraft "icaoType" ↔ state.icao_type ≠ none) ∧
    (hasKey ev.aircraft "model" ↔ state.model ≠ none) ∧
    (hasKey ev.aircraft "isMilitary" ↔ state.is_military ≠ none) ∧
    (hasKey ev.aircraft "isInteresting" ↔ state.is_interesting ≠ none) ∧
    (hasKey ev.aircraft "isPIA" ↔ state.is_pia ≠ none) ∧
    (hasKey ev.aircraft "isLADD" ↔ state.is_ladd ≠ none) ∧
    hasKey ev.position "lat" ∧
    hasKey ev.position "lon" ∧
    (hasKey ev.position "altitudeFt" ↔ state.altitude_ft ≠ none) ∧
    (hasKey ev.position "groundSpeedKts" ↔ state.speed_kts ≠ none) ∧
    (hasKey ev.position "trackDeg" ↔ state.heading_deg ≠ none) ∧
    (hasKey ev.position "verticalRateFpm" ↔ state.vertical_rate_fpm ≠ none) ∧
    (hasKey ev.codes "squawk" ↔ state.squawk ≠ none) ∧
    (hasKey ev.codes "alert" ↔ state.alert ≠ none) ∧
    (hasKey ev.codes "emergency" ↔ state.emergency ≠ none) ∧
    (hasKey ev.codes "spi" ↔ state.spi ≠ none) ∧
    (hasKey ev.codes "onGround" ↔ state.on_ground ≠ none) ∧
    (hasKey ev.raw "sbs" ↔ raw_sbs ≠ none) ∧
    (hasKey ev.raw "messageType" ↔ message_type ≠ none) ∧
    (hasKey ev.raw "transmissionType" ↔ transmission_type ≠ none) := by
  unfold build_adsb_position_event at h
  split_ifs at h with hc
  push_neg at hc
  obtain hrec := Except.ok.inj h
  subst hrec
  refine ⟨?_, ?_, ?_, ?_, ?_, ?_, ?_, ?_, ?_, ?_, ?_, ?_, ?_, ?_, ?_, ?_, ?_, ?_, ?_,
    ?_, ?_, ?_, ?_⟩
  · simp [aircraftBlock, hasKey_drop_none]
  · simp only [aircraftBlock, hasKey_drop_none]
    by_cases hf : state.flight = "" <;> simp [hf]
  · simp [aircraftBlock, hasKey_drop_none, Option.isSome_iff_ne_none]
  · simp [aircraftBlock, hasKey_drop_none, Option.isSome_iff_ne_none]
  · simp [aircraftBlock, hasKey_drop_none, Option.isSome_iff_ne_none]
  · simp [aircraftBlock, hasKey_drop_none, Option.isSome_iff_ne_none]
  · simp [aircraftBlock, hasKey_drop_none, Option.isSome_iff_ne_none]
  · simp [aircraftBlock, hasKey_drop_none, Option.isSome_iff_ne_none]
  · simp [aircraftBlock, hasKey_drop_none, Option.isSome_iff_ne_none]
  · simp [positionBlock, hasKey_drop_none, Option.isSome_iff_ne_none]
    exact hc.1
  · simp [positionBlock, hasKey_drop_none, Option.isSome_iff_ne_none]
    exact hc.2
  · simp [positionBlock, hasKey_drop_none, Option.isSome_iff_ne_none]
  · simp [positionBlock, hasKey_drop_none, Option.isSome_iff_ne_none]
  · simp [positionBlock, hasKey_drop_none, Option.isSome_iff_ne_none]
  · simp [positionBlock, hasKey_drop_none, Option.isSome_iff_ne_none]
  · simp [codesBlock, hasKey_drop_none, Option.isSome_iff_ne_none]
  · simp [codesBlock, hasKey_drop_none, Option.isSome_iff_ne_none]
  · simp [codesBlock, hasKey_drop_none, Option.isSome_iff_ne_none]
  · simp [codesBlock, hasKey_drop_none, Option.isSome_iff_ne_none]
  · simp [codesBlock, hasKey_drop_none, Option.isSome_iff_ne_none]
  · simp [rawBlock, hasKey_drop_none, Option.isSome_iff_ne_none]
  · simp [rawBlock, hasKey_drop_none, Option.isSome_iff_ne_none]
  · simp [rawBlock, hasKey_drop_none, Option.isSome_iff_ne_none]

/-- The event built from `stTest` with full provenance and a timestamp
override. -/
def evTest : Event :=
  { eventType := "adsb.position.v1", source := "station", tsUnixMs := 5
    aircraft := [("icaoHex", JVal.s "3C5EF2"), ("callsign", JVal.s "EWG4TV")]
    position := [("lat", JVal.q 45), ("lon", JVal.q 9), ("altitudeFt", JVal.i 0)]
    codes := [("alert", JVal.b false), ("onGround", JVal.b false)]
    raw := [("sbs", JVal.s "RAW"), ("messageType", JVal.s "MSG"),
      ("transmissionType", JVal.i 3)] }

theorem C7_blocks_drop_none_witness :
    build_adsb_position_event stTest "station" (some "RAW") (some "MSG") (some 3) (some 5) 7
      = .ok evTest ∧
    hasKey evTest.position "altitudeFt" ∧
    hasKey evTest.codes "onGround" ∧
    ¬ hasKey evTest.codes "squawk" ∧
    hasKey evTest.aircraft "callsign" := by
  have h : build_adsb_position_event stTest "station" (some "RAW") (some "MSG") (some 3)
      (some 5) 7 = .ok evTest := by rfl
  have hc := C7_blocks_drop_none stTest "station" (some "RAW") (some "MSG") (some 3)
    (some 5) 7 evTest h
  refine ⟨h, ?_, ?_, ?_, ?_⟩
  · exact hc.2.2.2.2.2.2.2.2.2.2.2.1.mpr (by decide)
  · exact hc.2.2.2.2.2.2.2.2.2.2.2.2.2.2.2.2.2.2.2.1.mpr (by decide)
  · intro hk
    exact (hc.2.2.2.2.2.2.2.2.2.2.2.2.2.2.2.1.mp hk) rfl
  · exact hc.2.1.mpr (by decide)

/-! ### Claim C1: per-field last-value-wins merging -/

/-- Right-biased combination of optional values: the new value wins when
present (`if msg.field is not None: state.field = msg.field`). -/
def oLast {α : Type} (a b : Option α) : Option α := if b.isSome then b else a

/-- Right-biased combination under Python string truthiness: a present and
non-empty new string wins (`if msg.squawk: state.squawk = msg.squawk`). -/
def tLast (a b : Option String) : Option String :=
  match b with
  | some s => if s = "" then a else some s
  | none => a

/-- The plain-string variant used for `state.flight`
(`if msg.flight: state.flight = msg.flight`). -/
def sLast (f : String) (x : Option String) : String :=
  match x with
  | some s => if s = "" then f else s
  | none => f

/-- The last non-absent value of a sequence of optional field values. -/
def lastSome {α : Type} (xs : List (Option α)) : Option α := xs.foldl oLast none

/-- The last truthy (present and non-empty) string of a sequence. -/
def lastTruthy (xs : List (Option String)) : Option String := xs.foldl tLast none

lemma oLast_none {α : Type} (b : Option α) : oLast none b = b := by
  cases b <;> rfl

lemma foldl_oLast {α : Type} (xs : List (Option α)) (i : Option α) :
    xs.foldl oLast i = oLast i (lastSome xs) := by
  induction xs generalizing i with
  | nil => cases i <;> rfl
  | cons x xs ih =>
    rw [List.foldl_cons, ih]
    have hx : lastSome (x :: xs) = oLast (oLast none x) (lastSome xs) := by
      show xs.foldl oLast (oLast none x) = _
      rw [ih]
    rw [hx]
    rcases lastSome xs with _ | v <;> rcases x with _ | w <;> rcases i with _ | u <;> rfl

lemma foldl_tLast (xs : List (Option String)) (i : Option String) :
    xs.foldl tLast i = oLast i (lastTruthy xs) := by
  induction xs generalizing i with
  | nil => cases i <;> rfl
  | cons x xs ih =>
    rw [List.foldl_cons, ih]
    have hx : lastTruthy (x :: xs) = oLast (tLast none x) (lastTruthy xs) := by
      show xs.foldl tLast (tLast none x) = _
      rw [ih]
    rw [hx]
    rcases lastTruthy xs with _ | v <;> rcases x with _ | s <;> rcases i with _ | u <;>
      first
        | rfl
        | (by_cases hs : s = "" <;> simp [tLast, oLast, hs])

lemma foldl_sLast (xs : List (Option String)) (i : String) :
    xs.foldl sLast i = (lastTruthy xs).getD i := by
  induction xs generalizing i with
  | nil => rfl
  | cons x xs ih =>
    rw [List.foldl_cons, ih]
    have hx : lastTruthy (x :: xs) = oLast (tLast none x) (lastTruthy xs) := by
      show xs.foldl tLast (tLast none x) = _
      rw [foldl_tLast]
    rw [hx]
    rcases lastTruthy xs with _ | v <;> rcases x with _ | s <;>
      first
        | rfl
        | (by_cases hs : s = "" <;> simp [tLast, sLast, oLast, hs])

/-- One step of the state fold performed by `update` on an existing state. -/
def stepMerge (now : String) (s : AircraftState) (m : ParsedMessage) : AircraftState :=
  { mergeMessage s m with last_update := some now }

lemma foldl_stepMerge_lat (now : String) (msgs : List ParsedMessage) (st : AircraftState) :
    (msgs.foldl (stepMerge now) st).lat = (msgs.map (fun m => m.lat)).foldl oLast st.lat := by
  induction msgs generalizing st with
  | nil => rfl
  | cons m ms ih => rw [List.map_cons, List.foldl_cons, List.foldl_cons, ih]; rfl

lemma foldl_stepMerge_lon (now : String) (msgs : List ParsedMessage) (st : AircraftState) :
    (msgs.foldl (stepMerge now) st).lon = (msgs.map (fun m => m.lon)).foldl oLast st.lon := by
  induction msgs generalizing st with
  | nil => rfl
  | cons m ms ih => rw [List.map_cons, List.foldl_cons, List.foldl_cons, ih]; rfl

lemma foldl_stepMerge_altitude (now : String) (msgs : List ParsedMessage) (st : AircraftState) :
    (msgs.foldl (stepMerge now) st).altitude_ft
      = (msgs.map (fun m => m.altitude_ft)).foldl oLast st.altitude_ft := by
  induction msgs generalizing st with
  | nil => rfl
  | cons m ms ih => rw [List.map_cons, List.foldl_cons, List.foldl_cons, ih]; rfl

lemma foldl_stepMerge_speed (now : String) (msgs : List ParsedMessage) (st : AircraftState) :
    (msgs.foldl (stepMerge now) st).speed_kts
      = (msgs.map (fun m => m.ground_speed_kts)).foldl oLast st.speed_kts := by
  induction msgs generalizing st with
  | nil => rfl
  | cons m ms ih => rw [List.map_cons, List.foldl_cons, List.foldl_cons, ih]; rfl

lemma foldl_stepMerge_heading (now : String) (msgs : List ParsedMessage) (st : AircraftState) :
    (msgs.foldl (stepMerge now) st).heading_deg
      = (msgs.map (fun m => m.track_deg)).foldl oLast st.heading_deg := by
  induction msgs generalizing st with
  | nil => rfl
  | cons m ms ih => rw [List.map_cons, List.foldl_cons, List.foldl_cons, ih]; rfl

lemma foldl_stepMerge_vr (now : String) (msgs : List ParsedMessage) (st : AircraftState) :
    (msgs.foldl (stepMerge now) st).vertical_rate_fpm
      = (msgs.map (fun m => m.vertical_rate_fpm)).foldl oLast st.vertical_rate_fpm := by
  induction msgs generalizing st with
  | nil => rfl
  | cons m ms ih => rw [List.map_cons, List.foldl_cons, List.foldl_cons, ih]; rfl

lemma foldl_stepMerge_alert (now : String) (msgs : List ParsedMessage) (st : AircraftState) :
    (msgs.foldl (stepMerge now) st).alert = (msgs.map (fun m => m.alert)).foldl oLast st.alert := by
  induction msgs generalizing st with
  | nil => rfl
  | cons m ms ih => rw [List.map_cons, List.foldl_cons, List.foldl_cons, ih]; rfl

lemma foldl_stepMerge_emergency (now : String) (msgs : List ParsedMessage) (st : AircraftState) :
    (msgs.foldl (stepMerge now) st).emergency
      = (msgs.map (fun m => m.emergency)).foldl oLast st.emergency := by
  induction msgs generalizing st with
  | nil => rfl
  | cons m ms ih => rw [List.map_cons, List.foldl_cons, List.foldl_cons, ih]; rfl

lemma foldl_stepMerge_spi (now : String) (msgs : List ParsedMessage) (st : AircraftState) :
    (msgs.foldl (stepMerge now) st).spi = (msgs.map (fun m => m.spi)).foldl oLast st.spi := by
  induction msgs generalizing st with
  | nil => rfl
  | cons m ms ih => rw [List.map_cons, List.foldl_cons, List.foldl_cons, ih]; rfl

lemma foldl_stepMerge_onground (now : String) (msgs : List ParsedMessage) (st : AircraftState) :
    (msgs.foldl (stepMerge now) st).on_ground
      = (msgs.map (fun m => m.on_ground)).foldl oLast st.on_ground := by
  induction msgs generalizing st with
  | nil => rfl
  | cons m ms ih => rw [List.map_cons, List.foldl_cons, List.foldl_cons, ih]; rfl

lemma foldl_stepMerge_squawk (now : String) (msgs : List ParsedMessage) (st : AircraftState) :
    (msgs.foldl (stepMerge now) st).squawk
      = (msgs.map (fun m => m.squawk)).foldl tLast st.squawk := by
  induction msgs generalizing st with
  | nil => rfl
  | cons m ms ih =>
    rw [List.map_cons, List.foldl_cons, List.foldl_cons, ih]
    rcases hs : m.squawk with _ | s <;> simp [stepMerge, mergeMessage, tLast, hs]

lemma foldl_stepMerge_flight (now : String) (msgs : List ParsedMessage) (st : AircraftState) :
    (msgs.foldl (stepMerge now) st).flight
      = (msgs.map (fun m => m.callsign)).foldl sLast st.flight := by
  induction msgs generalizing st with
  | nil => rfl
  | cons m ms ih =>
    rw [List.map_cons, List.foldl_cons, List.foldl_cons, ih]
    rcases hs : m.callsign with _ | s <;>
      simp [stepMerge, mergeMessage, sLast, ParsedMessage.flight, hs]

lemma runUpdates_get_state (x : String) (now : String) :
    ∀ (msgs : List ParsedMessage) (t : AircraftStateTracker), msgs ≠ [] →
      (∀ m ∈ msgs, m.icao = x) →
      (runUpdates t msgs now).get_state x =
        some (msgs.foldl (stepMerge now) (initialState t x)) := by
  intro msgs
  induction msgs with
  | nil => intro t h _; exact absurd rfl h
  | cons m ms ih =>
    intro t _ hic
    have hmx : m.icao = x := hic m (List.mem_cons_self ..)
    by_cases hms : ms = []
    · subst hms
      show ((t.update m now).tracker).get_state x = _
      show findState (insertState t.states m.icao (updatedState t m now)) x = _
      rw [← hmx, findState_insertState_self]
      rfl
    · show (runUpdates ((t.update m now)).tracker ms now).get_state x = _
      rw [ih ((t.update m now).tracker) hms (fun m2 hm2 => hic m2 (List.mem_cons_of_mem _ hm2))]
      rw [List.foldl_cons]
      have hinit : initialState ((t.update m now)).tracker x = stepMerge now (initialState t x) m := by
        unfold initialState
        show (match findState (insertState t.states m.icao (updatedState t m now)) x with
          | some st => st
          | none => applyAircraftInfo ((t.update m now)).tracker.lookup_aircraft_info
              { icao := x }) = _
        rw [← hmx, findState_insertState_self]
        rfl
      rw [hinit]

/-- A message carrying callsign `"ABC"`. -/
def msgCallA : ParsedMessage :=
  { raw := "", message_type := "MSG", icao := "AAA111", callsign := some "ABC" }

/-- A message whose callsign is present but the empty string. -/
def msgCallB : ParsedMessage :=
  { raw := "", message_type := "MSG", icao := "AAA111", callsign := some "" }

/-- C1 counterexample: when the last message carries a present-but-empty
callsign, the stored flight keeps the earlier `"ABC"`, while the last
non-absent callsign value across the sequence is `some ""` — the claimed
field-wise last-non-absent equation fails for the callsign/flight field.
(The code applies the same falsy-string rule to the callsign as to the
squawk, which the claim reserves to the squawk only.) -/
theorem C1_merge_counterexample :
    ((runUpdates ⟨none, []⟩ [msgCallA, msgCallB] "t").get_state "AAA111").map
      (fun st => st.flight) = some "ABC" ∧
    lastSome ([msgCallA, msgCallB].map (fun m => m.callsign)) = some "" ∧
    ("ABC" : String) ≠ "" :=
  ⟨by decide, by decide, by decide⟩

/-- C1 (amended): for every non-empty sequence of messages with the same
aircraft identifier fed to `update` on a fresh tracker, each data field of
the resulting state is the last non-absent value of that field across the
sequence; a field absent in a message never clears the stored value; a
squawk that is an empty or falsy string is no new value; and the
callsign/flight field follows the same falsy rule as the squawk (an empty
callsign is no new value; the flight string defaults to `""`). -/
theorem C1_merge_last_nonabsent (msgs : List ParsedMessage) (x : String)
    (lookup : Option LookupFn) (now : String)
    (hx : ∀ m ∈ msgs, m.icao = x) (hne : msgs ≠ []) :
    ∃ st, (runUpdates ⟨lookup, []⟩ msgs now).get_state x = some st ∧
      st.lat = lastSome (msgs.map (fun m => m.lat)) ∧
      st.lon = lastSome (msgs.map (fun m => m.lon)) ∧
      st.altitude_ft = lastSome (msgs.map (fun m => m.altitude_ft)) ∧
      st.speed_kts = lastSome (msgs.map (fun m => m.ground_speed_kts)) ∧
      st.heading_deg = lastSome (msgs.map (fun m => m.track_deg)) ∧
      st.vertical_rate_fpm = lastSome (msgs.map (fun m => m.vertical_rate_fpm)) ∧
      st.alert = lastSome (msgs.map (fun m => m.alert)) ∧
      st.emergency = lastSome (msgs.map (fun m => m.emergency)) ∧
      st.spi = lastSome (msgs.map (fun m => m.spi)) ∧
      st.on_ground = lastSome (msgs.map (fun m => m.on_ground)) ∧
      st.squawk = lastTruthy (msgs.map (fun m => m.squawk)) ∧
      st.flight = (lastTruthy (msgs.map (fun m => m.callsign))).getD "" := by
  have hpre := applyAircraftInfo_preserves lookup
    ({ icao := x } : AircraftState)
  have h0 : initialState ⟨lookup, []⟩ x = applyAircraftInfo lookup { icao := x } := rfl
  refine ⟨_, runUpdates_get_state x now msgs ⟨lookup, []⟩ hne hx, ?_, ?_, ?_, ?_, ?_, ?_,
    ?_, ?_, ?_, ?_, ?_, ?_⟩
  · rw [foldl_stepMerge_lat, foldl_oLast, h0, hpre.2.2.1]
    exact oLast_none _
  · rw [foldl_stepMerge_lon, foldl_oLast, h0, hpre.2.2.2.1]
    exact oLast_none _
  · rw [foldl_stepMerge_altitude, foldl_oLast, h0, hpre.2.2.2.2.1]
    exact oLast_none _
  · rw [foldl_stepMerge_speed, foldl_oLast, h0, hpre.2.2.2.2.2.1]
    exact oLast_none _
  · rw [foldl_stepMerge_heading, foldl_oLast, h0, hpre.2.2.2.2.2.2.1]
    exact oLast_none _
  · rw [foldl_stepMerge_vr, foldl_oLast, h0, hpre.2.2.2.2.2.2.2.1]
    exact oLast_none _
  · rw [foldl_stepMerge_alert, foldl_oLast, h0, hpre.2.2.2.2.2.2.2.2.2.1]
    exact oLast_none _
  · rw [foldl_stepMerge_emergency, foldl_oLast, h0, hpre.2.2.2.2.2.2.2.2.2.2.1]
    exact oLast_none _
  · rw [foldl_stepMerge_spi, foldl_oLast, h0, hpre.2.2.2.2.2.2.2.2.2.2.2.1]
    exact oLast_none _
  · rw [foldl_stepMerge_onground, foldl_oLast, h0, hpre.2.2.2.2.2.2.2.2.2.2.2.2.1]
    exact oLast_none _
  · rw [foldl_stepMerge_squawk, foldl_tLast, h0, hpre.2.2.2.2.2.2.2.2.1]
    exact oLast_none _
  · rw [foldl_stepMerge_flight, foldl_sLast, h0, hpre.2.1]

theorem C1_merge_last_nonabsent_witness :
    ∃ st, (runUpdates ⟨none, []⟩ [msgCallA, msgCallB] "t").get_state "AAA111" = some st ∧
      st.lat = lastSome ([msgCallA, msgCallB].map (fun m => m.lat)) ∧
      st.lon = lastSome ([msgCallA, msgCallB].map (fun m => m.lon)) ∧
      st.altitude_ft = lastSome ([msgCallA, msgCallB].map (fun m => m.altitude_ft)) ∧
      st.speed_kts = lastSome ([msgCallA, msgCallB].map (fun m => m.ground_speed_kts)) ∧
      st.heading_deg = lastSome ([msgCallA, msgCallB].map (fun m => m.track_deg)) ∧
      st.vertical_rate_fpm = lastSome ([msgCallA, msgCallB].map (fun m => m.vertical_rate_fpm)) ∧
      st.alert = lastSome ([msgCallA, msgCallB].map (fun m => m.alert)) ∧
      st.emergency = lastSome ([msgCallA, msgCallB].map (fun m => m.emergency)) ∧
      st.spi = lastSome ([msgCallA, msgCallB].map (fun m => m.spi)) ∧
      st.on_ground = lastSome ([msgCallA, msgCallB].map (fun m => m.on_ground)) ∧
      st.squawk = lastTruthy ([msgCallA, msgCallB].map (fun m => m.squawk)) ∧
      st.flight = (lastTruthy ([msgCallA, msgCallB].map (fun m => m.callsign))).getD "" :=
  C1_merge_last_nonabsent [msgCallA, msgCallB] "AAA111" none "t" (by decide) (by decide)

/-! ### Claim C8: lat/lon pairing invariant -/

lemma parse_latlon_paired (line : String) (m : ParsedMessage)
    (h : parse_sbs_line line = .ok (some m)) : m.lat.isSome ↔ m.lon.isSome := by
  rw [(parse_sbs_line_some_eq line m h).2.2]
  simp [buildParsedMessage]

lemma update_preserves_paired (t : AircraftStateTracker) (msg : ParsedMessage) (now : String)
    (hmsg : msg.lat.isSome ↔ msg.lon.isSome)
    (ht : ∀ k st, t.get_state k = some st → (st.lat.isSome ↔ st.lon.isSome)) :
    ∀ k st, ((t.update msg now).tracker).get_state k = some st →
      (st.lat.isSome ↔ st.lon.isSome) := by
  intro k st hk
  by_cases hkk : k = msg.icao
  · subst hkk
    rw [show ((t.update msg now).tracker).get_state msg.icao
        = findState (insertState t.states msg.icao (updatedState t msg now)) msg.icao from rfl,
      findState_insertState_self] at hk
    obtain rfl := (Option.some.inj hk).symm
    have hinitp : (initialState t msg.icao).lat.isSome ↔ (initialState t msg.icao).lon.isSome := by
      unfold initialState
      rcases hf : findState t.states msg.icao with _ | st0
      · simp only [hf]
        rw [(applyAircraftInfo_preserves t.lookup_aircraft_info _).2.2.1,
          (applyAircraftInfo_preserves t.lookup_aircraft_info _).2.2.2.1]
      · simp only [hf]
        exact ht msg.icao st0 hf
    have hl : (updatedState t msg now).lat = oLast (initialState t msg.icao).lat msg.lat := rfl
    have hlo : (updatedState t msg now).lon = oLast (initialState t msg.icao).lon msg.lon := rfl
    rw [hl, hlo]
    unfold oLast
    rcases hml : msg.lat with _ | a <;> rcases hmlo : msg.lon with _ | b <;>
      simp_all
  · rw [show ((t.update msg now).tracker).get_state k
        = findState (insertState t.states msg.icao (updatedState t msg now)) k from rfl,
      findState_insertState_ne _ _ _ _ hkk] at hk
    exact ht k st hk

lemma runParsedLines_paired (now : String) :
    ∀ (lines : List String) (t : AircraftStateTracker),
      (∀ k st, t.get_state k = some st → (st.lat.isSome ↔ st.lon.isSome)) →
      ∀ k st, (runParsedLines t lines now).get_state k = some st →
        (st.lat.isSome ↔ st.lon.isSome) := by
  intro lines
  induction lines with
  | nil => intro t ht; exact ht
  | cons line rest ih =>
    intro t ht
    rcases hp : parse_sbs_line line with e | mo
    · have hstep : runParsedLines t (line :: rest) now = runParsedLines t rest now := by
        simp only [runParsedLines, List.foldl_cons, hp]
      rw [hstep]
      exact ih t ht
    rcases mo with _ | m
    · have hstep : runParsedLines t (line :: rest) now = runParsedLines t rest now := by
        simp only [runParsedLines, List.foldl_cons, hp]
      rw [hstep]
      exact ih t ht
    · have hstep : runParsedLines t (line :: rest) now
          = runParsedLines ((t.update m now)).tracker rest now := by
        simp only [runParsedLines, List.foldl_cons, hp]
      rw [hstep]
      exact ih _ (update_preserves_paired t m now (parse_latlon_paired line m hp) ht)

/-- C8: every state held by a tracker that has only ever been fed messages
produced by `parse_sbs_line` has latitude and longitude either both present
or both absent, and every `update` preserves this. -/
theorem C8_latlon_both_or_neither (lines : List String) (lookup : Option LookupFn)
    (now : String) (icao : String) (st : AircraftState)
    (h : (runParsedLines ⟨lookup, []⟩ lines now).get_state icao = some st) :
    st.lat.isSome ↔ st.lon.isSome :=
  runParsedLines_paired now lines ⟨lookup, []⟩
    (fun _ _ h0 => by simp [AircraftStateTracker.get_state, findState] at h0) icao st h

/-- The tracked state after feeding `lineA` into a fresh tracker. -/
def c8state : AircraftState :=
  { icao := "3C5EF2", flight := "EWG4TV"
    lat := some (mkRat 4563 100), lon := some (mkRat 1117 125)
    altitude_ft := some 38000, speed_kts := some 376, heading_deg := some 158
    alert := some false, emergency := some false, spi := some false
    on_ground := some false, last_update := some "t" }

theorem C8_latlon_both_or_neither_witness :
    (runParsedLines ⟨none, []⟩ [lineA] "t").get_state "3C5EF2" = some c8state ∧
    (c8state.lat.isSome ↔ c8state.lon.isSome) := by
  have h : (runParsedLines ⟨none, []⟩ [lineA] "t").get_state "3C5EF2" = some c8state := by
    decide
  exact ⟨h, C8_latlon_both_or_neither [lineA] none "t" "3C5EF2" c8state h⟩

/-! ### Claim C9: enrichment exactly once, failures swallowed -/

/-- The first occurrence of each identifier of a list, skipping those already
seen. -/
def firstOccs : List String → List String → List String
  | _, [] => []
  | seen, x :: xs => if x ∈ seen then firstOccs seen xs else x :: firstOccs (x :: seen) xs

lemma update_get_state_eq (t : AircraftStateTracker) (msg : ParsedMessage) (now : String)
    (k : String) :
    ((t.update msg now).tracker).get_state k =
      if k = msg.icao then some (updatedState t msg now) else t.get_state k := by
  by_cases hk : k = msg.icao
  · subst hk
    rw [if_pos rfl]
    exact findState_insertState_self ..
  · rw [if_neg hk]
    exact findState_insertState_ne _ _ _ _ hk

lemma runTrace_trace (now : String) (f : LookupFn) :
    ∀ (msgs : List ParsedMessage) (t : AircraftStateTracker) (seen : List String),
      t.lookup_aircraft_info = some f →
      (∀ k, (t.get_state k).isSome ↔ k ∈ seen) →
      (runTrace t msgs now).2 = firstOccs seen (msgs.map (fun m => m.icao)) := by
  intro msgs
  induction msgs with
  | nil => intro t seen _ _; rfl
  | cons m rest ih =>
    intro t seen hl hs
    show ((if (t.update m now).enrichInvoked then [m.icao] else [])
        ++ (runTrace ((t.update m now)).tracker rest now).2) = _
    have hs2 : ∀ k, (((t.update m now).tracker).get_state k).isSome ↔
        k ∈ (if m.icao ∈ seen then seen else m.icao :: seen) := by
      intro k
      rw [update_get_state_eq]
      by_cases hk : k = m.icao
      · subst hk
        by_cases hmem2 : m.icao ∈ seen <;> simp [hmem2]
      · by_cases hmem2 : m.icao ∈ seen <;> simp [hk, hs k, hmem2]
    by_cases hmem : m.icao ∈ seen
    · have hfs : (findState t.states m.icao).isSome := (hs m.icao).mpr hmem
      have hinv : (t.update m now).enrichInvoked = false := by
        show ((findState t.states m.icao).isNone && t.lookup_aircraft_info.isSome) = false
        rcases Option.isSome_iff_exists.mp hfs with ⟨st0, hst0⟩
        simp [hst0]
      rw [hinv]
      rw [show firstOccs seen (List.map (fun m => m.icao) (m :: rest))
          = firstOccs seen (rest.map (fun m => m.icao)) by
        simp [firstOccs, hmem]]
      rw [if_neg (by simp)]
      rw [ih ((t.update m now)).tracker seen hl (by simpa [hmem] using hs2)]
      simp
    · have hfs : findState t.states m.icao = none := by
        rcases hft : findState t.states m.icao with _ | st0
        · rfl
        · exact absurd ((hs m.icao).mp (by simp [AircraftStateTracker.get_state, hft])) hmem
      have hinv : (t.update m now).enrichInvoked = true := by
        show ((findState t.states m.icao).isNone && t.lookup_aircraft_info.isSome) = true
        simp [hfs, hl]
      rw [hinv]
      rw [show firstOccs seen (List.map (fun m => m.icao) (m :: rest))
          = m.icao :: firstOccs (m.icao :: seen) (rest.map (fun m => m.icao)) by
        simp [firstOccs, hmem]]
      rw [if_pos rfl]
      rw [ih ((t.update m now)).tracker (m.icao :: seen) hl (by simpa [hmem] using hs2)]
      simp

lemma count_firstOccs (x : String) :
    ∀ (l : List String) (seen : List String),
      (firstOccs seen l).count x = if x ∈ l ∧ x ∉ seen then 1 else 0 := by
  intro l
  induction l with
  | nil => intro seen; simp [firstOccs]
  | cons y ys ih =>
    intro seen
    by_cases hy : y ∈ seen
    · rw [show firstOccs seen (y :: ys) = firstOccs seen ys by simp [firstOccs, hy], ih]
      by_cases hx : x = y <;> by_cases hxs : x ∈ ys <;> by_cases hxe : x ∈ seen <;>
        simp_all
    · rw [show firstOccs seen (y :: ys) = y :: firstOccs (y :: seen) ys by
        simp [firstOccs, hy], List.count_cons, ih (y :: seen)]
      by_cases hx : x = y <;> by_cases hxs : x ∈ ys <;> by_cases hxe : x ∈ seen <;>
        simp_all <;> exact fun h => hx h.symm

lemma runTrace_states_error (now : String) (f : LookupFn) (hf : ∀ s, f s = .error ()) :
    ∀ (msgs : List ParsedMessage) (s : List (String × AircraftState)),
      (runTrace ⟨some f, s⟩ msgs now).1.states = (runTrace ⟨none, s⟩ msgs now).1.states := by
  intro msgs
  induction msgs with
  | nil => intro s; rfl
  | cons m rest ih =>
    intro s
    have hinit : initialState ⟨some f, s⟩ m.icao = initialState ⟨none, s⟩ m.icao := by
      unfold initialState
      rcases hfs : findState s m.icao with _ | st0
      · simp only [hfs]
        have happ : applyAircraftInfo (some f) ({ icao := m.icao } : AircraftState)
            = ({ icao := m.icao } : AircraftState) := by
          simp only [applyAircraftInfo, hf]
        rw [happ]
        rfl
      · simp only [hfs]
    have hupd : updatedState ⟨some f, s⟩ m now = updatedState ⟨none, s⟩ m now := by
      unfold updatedState
      rw [hinit]
    show (runTrace ((AircraftStateTracker.mk (some f) s).update m now).tracker rest now).1.states
      = (runTrace ((AircraftStateTracker.mk none s).update m now).tracker rest now).1.states
    rw [show ((AircraftStateTracker.mk (some f) s).update m now).tracker
        = ⟨some f, insertState s m.icao (updatedState ⟨some f, s⟩ m now)⟩ from rfl,
      show ((AircraftStateTracker.mk none s).update m now).tracker
        = ⟨none, insertState s m.icao (updatedState ⟨none, s⟩ m now)⟩ from rfl,
      hupd]
    exact ih _

/-- C9: with an enrichment collaborator configured, a run of updates invokes
it exactly at the first occurrence of each distinct aircraft identifier —
once per distinct identifier over the whole run, never on later updates —
and a collaborator that raises on every call is swallowed: the run still
completes with exactly the same per-aircraft states as a run with no
collaborator at all (states are still created and merged). -/
theorem C9_enrichment_once_failures_swallowed (msgs : List ParsedMessage) (now : String)
    (f : LookupFn) :
    (runTrace ⟨some f, []⟩ msgs now).2 = firstOccs [] (msgs.map (fun m => m.icao)) ∧
    (∀ x, ((runTrace ⟨some f, []⟩ msgs now).2).count x
      = if x ∈ msgs.map (fun m => m.icao) then 1 else 0) ∧
    ((∀ s, f s = .error ()) →
      (runTrace ⟨some f, []⟩ msgs now).1.states = (runTrace ⟨none, []⟩ msgs now).1.states) := by
  have htr := runTrace_trace now f msgs ⟨some f, []⟩ [] rfl
    (fun k => by simp [AircraftStateTracker.get_state, findState])
  refine ⟨htr, ?_, fun hf => runTrace_states_error now f hf msgs []⟩
  intro x
  rw [htr, count_firstOccs]
  simp

/-- An enrichment collaborator that raises on every lookup. -/
def fThrow : LookupFn := fun _ => .error ()

theorem C9_enrichment_once_failures_swallowed_witness :
    (runTrace ⟨some fThrow, []⟩ [msgCallA, msgCallB] "t").2 = ["AAA111"] ∧
    ((runTrace ⟨some fThrow, []⟩ [msgCallA, msgCallB] "t").2).count "AAA111" = 1 ∧
    (runTrace ⟨some fThrow, []⟩ [msgCallA, msgCallB] "t").1.states
      = (runTrace ⟨none, []⟩ [msgCallA, msgCallB] "t").1.states := by
  obtain ⟨h1, h2, h3⟩ := C9_enrichment_once_failures_swallowed [msgCallA, msgCallB] "t" fThrow
  exact ⟨h1.trans (by decide), (h2 "AAA111").trans (by decide), h3 (fun s => rfl)⟩

/-! ### Claim C10: library decoder vs legacy decoder -/

/-- The string contains no ASCII lowercase letter (codepoints 97-122,
`a`-`z`). -/
def noLowercase (s : String) : Prop := ∀ c ∈ s.data, ¬ (97 ≤ c.toNat ∧ c.toNat ≤ 122)

lemma toUpper_eq_self (c : Char) (h : ¬ (97 ≤ c.toNat ∧ c.toNat ≤ 122)) :
    c.toUpper = c := by
  show (if 97 ≤ c.toNat ∧ c.toNat ≤ 122 then Char.ofNat (c.toNat - 32) else c) = c
  rw [if_neg h]

lemma pyUpper_eq_self (s : String) (h : noLowercase s) : pyUpper s = s := by
  obtain ⟨l⟩ := s
  apply String.ext
  show l.map Char.toUpper = l
  induction l with
  | nil => rfl
  | cons c cs ih =>
    rw [List.map_cons, toUpper_eq_self c (h c (List.mem_cons_self ..)),
      ih (fun c2 hc2 => h c2 (List.mem_cons_of_mem _ hc2))]

lemma mem_pyStripL (c : Char) (l : List Char) (h : c ∈ pyStripL l) : c ∈ l := by
  unfold pyStripL at h
  have h1 : c ∈ (l.dropWhile (· ∈ pyWhitespace)).reverse.dropWhile (· ∈ pyWhitespace) :=
    List.mem_reverse.mp h
  have h2 : c ∈ (l.dropWhile (· ∈ pyWhitespace)).reverse :=
    (List.dropWhile_sublist _).subset h1
  have h3 : c ∈ l.dropWhile (· ∈ pyWhitespace) := List.mem_reverse.mp h2
  exact (List.dropWhile_sublist _).subset h3

lemma noLowercase_pyStrip (s : String) (h : noLowercase s) : noLowercase (pyStrip s) :=
  fun c hc => h c (mem_pyStripL c s.data hc)

lemma legacy_parse_none_iff (line : String) :
    legacy_parse_sbs_line line = .ok none ↔
      pyStrip line = "" ∨ (pySplit (pyStrip line)).length < 5 ∨
      fieldAt (pySplit (pyStrip line)) 0 ≠ "MSG" ∨
      pyStrip (fieldAt (pySplit (pyStrip line)) 4) = "" := by
  simp only [legacy_parse_sbs_line]
  split_ifs with h1 h2 h3
  · simp [h1]
  · exact iff_of_true rfl (Or.inr (h2.imp id Or.inl))
  · exact iff_of_true rfl (Or.inr (Or.inr (Or.inr h3)))
  · obtain ⟨h2a, h2b⟩ := not_or.mp h2
    rcases ha : extractAltitude (pySplit (pyStrip line)) with e | alt
    · simp [h1, h2a, h2b, h3]
    · simp [h1, h2a, h2b, h3]

lemma legacy_parse_error_iff (line : String) :
    legacy_parse_sbs_line line = .error () ↔
      ¬ (pyStrip line = "" ∨ (pySplit (pyStrip line)).length < 5 ∨
          fieldAt (pySplit (pyStrip line)) 0 ≠ "MSG" ∨
          pyStrip (fieldAt (pySplit (pyStrip line)) 4) = "") ∧
      extractAltitude (pySplit (pyStrip line)) = .error () := by
  simp only [legacy_parse_sbs_line]
  split_ifs with h1 h2 h3
  · simp [h1]
  · exact iff_of_false (by simp) (fun hc => hc.1 (Or.inr (h2.imp id Or.inl)))
  · exact iff_of_false (by simp) (fun hc => hc.1 (Or.inr (Or.inr (Or.inr h3))))
  · obtain ⟨h2a, h2b⟩ := not_or.mp h2
    rcases ha : extractAltitude (pySplit (pyStrip line)) with e | alt
    · simp [h1, h2a, h2b, h3]
    · simp [h1, h2a, h2b, h3]

lemma legacy_parse_some_eq (line : String) (r : LegacyParsed)
    (h : legacy_parse_sbs_line line = .ok (some r)) :
    extractAltitude (pySplit (pyStrip line)) = .ok r.altitude_ft ∧
    r = legacyBuild (pySplit (pyStrip line)) r.altitude_ft := by
  simp only [legacy_parse_sbs_line] at h
  split_ifs at h <;> try simp_all
  rcases ha : extractAltitude (pySplit (pyStrip line)) with e | alt <;> rw [ha] at h
  · cases h
  obtain rfl : legacyBuild (pySplit (pyStrip line)) alt = r :=
    Option.some.inj (Except.ok.inj h)
  exact ⟨rfl, rfl⟩

lemma except_ok_some_iff {α : Type} (e : Except Unit (Option α)) :
    (∃ x, e = .ok (some x)) ↔ e ≠ .error () ∧ e ≠ .ok none := by
  rcases e with e0 | (_ | x)
  · cases e0
    exact iff_of_false (fun ⟨x, hx⟩ => Except.noConfusion hx) (fun h => h.1 rfl)
  · exact iff_of_false (fun ⟨x, hx⟩ => Option.noConfusion (Except.ok.inj hx))
      (fun h => h.2 rfl)
  · exact iff_of_true ⟨x, rfl⟩
      ⟨fun h => Except.noConfusion h, fun h => Option.noConfusion (Except.ok.inj h)⟩

/-- A line whose vertical-rate field is `1e400`: `float` overflows to
infinity, so the library decoder raises at `int(float("1e400"))` while the
legacy decoder, which never reads field 16, accepts the line. -/
def lineVr400 : String := "MSG,1,1,1,ABC,1,1,1,1,1,1,1,1,1,,,1e400"

/-- What the legacy decoder returns on `lineVr400`. -/
def legacyVr400 : LegacyParsed :=
  { icao := "ABC", flight := some "1", altitude_ft := some 1,
    speed_kts := some 1, heading_deg := some 1 }

/-- C10 counterexample: on `lineVr400` — whose field 0 is `"MSG"` and whose
field 4 has no lowercase letters — the library decoder raises an uncaught
`OverflowError` converting the vertical-rate field `1e400`, while the legacy
decoder of `src/adsb_to_csv.py`, which never parses field 16, accepts the
line; the two decoders do not accept or reject identically. -/
theorem C10_decoders_disagree_counterexample :
    fieldAt (pySplit (pyStrip lineVr400)) 0 = "MSG" ∧
    noLowercase (fieldAt (pySplit (pyStrip lineVr400)) 4) ∧
    parse_sbs_line lineVr400 = .error () ∧
    legacy_parse_sbs_line lineVr400 = .ok (some legacyVr400) :=
  ⟨by decide, by unfold noLowercase; decide, by decide, by decide⟩

/-- C10 (amended): for every input line whose field 0 is exactly the
literal `"MSG"`, whose field 4 contains no lowercase letters, and on which
the library decoder does not raise, the library decoder and the legacy
decoder of `src/adsb_to_csv.py` accept or reject the line identically —
the legacy decoder does not raise either, they reject the same lines, and
they accept the same lines — and on acceptance they agree on the ICAO,
callsign/flight, latitude, longitude, altitude, speed, heading, squawk and
`has_position`.  (Without the no-raise hypothesis the decoders can differ:
the library decoder also parses field 16, whose overflow to infinity
raises only there, as `C10_decoders_disagree_counterexample` shows.) -/
theorem C10_decoders_agree_noraise (line : String)
    (h0 : fieldAt (pySplit (pyStrip line)) 0 = "MSG")
    (h4 : noLowercase (fieldAt (pySplit (pyStrip line)) 4))
    (hnr : parse_sbs_line line ≠ .error ()) :
    legacy_parse_sbs_line line ≠ .error () ∧
    (parse_sbs_line line = .ok none ↔ legacy_parse_sbs_line line = .ok none) ∧
    ((∃ m, parse_sbs_line line = .ok (some m)) ↔
      (∃ r, legacy_parse_sbs_line line = .ok (some r))) ∧
    (∀ m r, parse_sbs_line line = .ok (some m) →
      legacy_parse_sbs_line line = .ok (some r) →
      r.icao = m.icao ∧ r.flight = m.callsign ∧ r.lat = m.lat ∧ r.lon = m.lon ∧
      r.altitude_ft = m.altitude_ft ∧ r.speed_kts = m.ground_speed_kts ∧
      r.heading_deg = m.track_deg ∧ r.squawk = m.squawk ∧
      r.has_position = m.has_position) := by
  have hMSG : pyStrip (fieldAt (pySplit (pyStrip line)) 0) = "MSG" := by
    rw [h0]
    decide
  have hupper : pyUpper (pyStrip (fieldAt (pySplit (pyStrip line)) 4))
      = pyStrip (fieldAt (pySplit (pyStrip line)) 4) :=
    pyUpper_eq_self _ (noLowercase_pyStrip _ h4)
  have hG : (pyStrip line = "" ∨ (pySplit (pyStrip line)).length < 5 ∨
      pyStrip (fieldAt (pySplit (pyStrip line)) 0) ≠ "MSG" ∨
      pyStrip (fieldAt (pySplit (pyStrip line)) 4) = "") ↔
      (pyStrip line = "" ∨ (pySplit (pyStrip line)).length < 5 ∨
      fieldAt (pySplit (pyStrip line)) 0 ≠ "MSG" ∨
      pyStrip (fieldAt (pySplit (pyStrip line)) 4) = "") := by
    have hms2 : pyStrip ("MSG" : String) = "MSG" := by decide
    simp [h0, hms2]
  have hlegne : legacy_parse_sbs_line line ≠ .error () := by
    intro hle
    obtain ⟨hng, hae⟩ := (legacy_parse_error_iff line).mp hle
    exact hnr ((parse_sbs_line_error_iff line).mpr
      ⟨fun hg => hng (hG.mp hg), Or.inl hae⟩)
  have h2 : parse_sbs_line line = .ok none ↔ legacy_parse_sbs_line line = .ok none := by
    rw [parse_sbs_line_none_iff, legacy_parse_none_iff]
    exact hG
  refine ⟨hlegne, h2, ?_, ?_⟩
  · rw [except_ok_some_iff, except_ok_some_iff]
    constructor
    · rintro ⟨h1a, h1b⟩
      exact ⟨hlegne, fun hc => h1b (h2.mpr hc)⟩
    · rintro ⟨h1a, h1b⟩
      exact ⟨hnr, fun hc => h1b (h2.mp hc)⟩
  · intro m r hm hr
    obtain ⟨ham, hvm, hmm⟩ := parse_sbs_line_some_eq line m hm
    obtain ⟨har, hrr⟩ := legacy_parse_some_eq line r hr
    rw [hrr, hmm]
    exact ⟨hupper.symm, rfl, rfl, rfl, Except.ok.inj (har.symm.trans ham),
      rfl, rfl, rfl, rfl⟩

/-- The decoded form of `lineB` under the library decoder. -/
def msgB : ParsedMessage :=
  { raw := "MSG,4,1,1,3C5EF2,1,D,T,D,T,EWG4TV,38000,380,160,,,,,,,,"
    message_type := "MSG"
    transmission_type := some 4
    icao := "3C5EF2"
    callsign := some "EWG4TV"
    altitude_ft := some 38000
    ground_speed_kts := some 380
    track_deg := some 160 }

/-- The decoded form of `lineB` under the legacy decoder. -/
def legacyB : LegacyParsed :=
  { icao := "3C5EF2", flight := some "EWG4TV", altitude_ft := some 38000
    speed_kts := some 380, heading_deg := some 160 }

theorem C10_decoders_agree_noraise_witness :
    parse_sbs_line lineB = .ok (some msgB) ∧
    legacy_parse_sbs_line lineB ≠ .error () ∧
    (legacyB.icao = msgB.icao ∧ legacyB.flight = msgB.callsign ∧ legacyB.lat = msgB.lat ∧
      legacyB.lon = msgB.lon ∧ legacyB.altitude_ft = msgB.altitude_ft ∧
      legacyB.speed_kts = msgB.ground_speed_kts ∧ legacyB.heading_deg = msgB.track_deg ∧
      legacyB.squawk = msgB.squawk ∧ legacyB.has_position = msgB.has_position) := by
  have h := C10_decoders_agree_noraise lineB (by decide)
    (by unfold noLowercase; decide) (by decide)
  exact ⟨by decide, h.1, h.2.2.2 msgB legacyB (by decide) (by decide)⟩
